import Mathlib

/-!
# Slingshot 2D game (`src/game.js`): embedding and verified properties

The game keeps its whole state in module-level variables (`slingshot`,
`projectile`, `target`, `successCount`, `timeLeft`, `gameOver`, `mousePos`)
that are mutated by three DOM handlers (`mousedown`, `mousemove`, `mouseup`),
by the interval callback of `startTimer` and by `update`, called once per
rendered frame.  Here the state is an explicit record and every one of these
is a function from state to state.

Number model.  JavaScript numbers are modelled by an arbitrary linearly
ordered field `K` with a floor function (`ℚ` to run the definitions, `ℝ` to
give the functions of `Math` their meaning), so arithmetic is exact.  The functions
`Math.hypot`, `Math.atan2`, `Math.cos` and `Math.sin` are taken from a record
`JSMath K`; `realMath` is their meaning over `ℝ`.  A call of `Math.random()`
is a parameter of the function that makes the call.
-/

namespace Game

/-! ## Data model -/

/-- The functions of the JavaScript `Math` object used by the game that are not
field operations. `atan2` takes its arguments in the order of the source:
`atan2 dy dx`. -/
structure JSMath (K : Type) where
  hypot : K → K → K
  atan2 : K → K → K
  cos : K → K
  sin : K → K

/-- The object `slingshot` (game.js 8-17). -/
structure Slingshot (K : Type) where
  x : K
  y : K
  forkWidth : K
  forkHeight : K
  bandLength : K
  isDragging : Bool
  angle : K
  force : K
deriving DecidableEq, Repr

/-- The object `projectile` (game.js 19-27). -/
structure Projectile (K : Type) where
  x : K
  y : K
  radius : K
  velocityX : K
  velocityY : K
  isFlying : Bool
  depth : K
deriving DecidableEq, Repr

/-- The object `target` (game.js 29-35). -/
structure Target (K : Type) where
  x : K
  y : K
  radius : K
  hit : Bool
  depth : K
deriving DecidableEq, Repr

/-- The object `mousePos` (game.js 48). -/
structure MousePos (K : Type) where
  x : K
  y : K
deriving DecidableEq, Repr

/-- All mutable module-level variables of game.js. -/
structure State (K : Type) where
  slingshot : Slingshot K
  projectile : Projectile K
  target : Target K
  successCount : Nat
  timeLeft : Int
  gameOver : Bool
  mousePos : MousePos K
deriving DecidableEq, Repr

section Code

variable {K : Type} [LinearOrderedField K] [FloorRing K]

/-! ## Constants -/

/-- The assignment `canvas.width = 800` (game.js 4). -/
def canvasWidth : K := 800

/-- The assignment `canvas.height = 600` (game.js 5). -/
def canvasHeight : K := 600

/-- The constant `gravity` (game.js 38). -/
def gravity : K := 0.5

/-- The constant `airResistance` (game.js 39). -/
def airResistance : K := 0.99

/-- The constant `groundFriction` (game.js 40). -/
def groundFriction : K := 0.8

/-- The constant `timeLimit` (game.js 43). -/
def timeLimit : Int := 30

/-! ## Target placement -/

/-- The function `getRandomInt(min, max)` (game.js 85-87):
`Math.floor(Math.random() * (max - min) + min)`, where `r` is the value
returned by `Math.random()`. -/
def getRandomInt (r min max : K) : K :=
  ((⌊r * (max - min) + min⌋ : Int) : K)

/-- The function `resetTarget()` (game.js 140-144); `rx` and `ry` are the
values of its two calls of `Math.random()`. -/
def resetTarget (rx ry : K) (s : State K) : State K :=
  let t := s.target
  let t := { t with x := getRandomInt rx (canvasWidth / 2) (canvasWidth - 50) }
  let t := { t with y := getRandomInt ry 100 (canvasHeight - 150) }
  let t := { t with hit := false }
  { s with target := t }

/-- The state after the top-level declarations of game.js (lines 8-48) have
run; `rx` and `ry` are the random values drawn for the first target. -/
def initialState (rx ry : K) : State K :=
  let slingshot : Slingshot K :=
    { x := 150, y := canvasHeight - 150, forkWidth := 30, forkHeight := 100,
      bandLength := 100, isDragging := false, angle := 0, force := 0 }
  { slingshot := slingshot
    projectile :=
      { x := slingshot.x, y := slingshot.y, radius := 15, velocityX := 0,
        velocityY := 0, isFlying := false, depth := 1 }
    target :=
      { x := getRandomInt rx (canvasWidth / 2) (canvasWidth - 50),
        y := getRandomInt ry 100 (canvasHeight - 150),
        radius := 30, hit := false, depth := 1 }
    successCount := 0
    timeLeft := timeLimit
    gameOver := false
    mousePos := { x := 0, y := 0 } }

/-! ## Input handlers -/

/-- The `mousedown` listener (game.js 51-61) for a press at
`(offsetX, offsetY)`. -/
def mousedown (M : JSMath K) (offsetX offsetY : K) (s : State K) : State K :=
  let dist := M.hypot (offsetX - s.slingshot.x) (offsetY - s.slingshot.y)
  if dist ≤ s.slingshot.forkWidth then
    { s with
      slingshot := { s.slingshot with isDragging := true }
      projectile :=
        { s.projectile with
          isFlying := false
          x := s.slingshot.x
          y := s.slingshot.y
          velocityX := 0
          velocityY := 0 } }
  else s

/-- The `mousemove` listener (game.js 63-72) for a pointer at
`(offsetX, offsetY)`. -/
def mousemove (M : JSMath K) (offsetX offsetY : K) (s : State K) : State K :=
  if s.slingshot.isDragging && !s.gameOver then
    let mousePos : MousePos K := { x := offsetX, y := offsetY }
    let dx := mousePos.x - s.slingshot.x
    let dy := mousePos.y - s.slingshot.y
    let distance := min 120 (M.hypot dx dy)
    { s with
      mousePos := mousePos
      slingshot := { s.slingshot with angle := M.atan2 dy dx, force := distance } }
  else s

/-- The `mouseup` listener (game.js 74-82). -/
def mouseup (M : JSMath K) (s : State K) : State K :=
  if s.slingshot.isDragging && !s.gameOver then
    let launchPower : K := 0.3
    { s with
      slingshot := { s.slingshot with isDragging := false }
      projectile :=
        { s.projectile with
          isFlying := true
          velocityX := s.slingshot.force * M.cos s.slingshot.angle * -launchPower
          velocityY := s.slingshot.force * M.sin s.slingshot.angle * -launchPower } }
  else s

/-! ## Timer -/

/-- One run of the interval callback of `startTimer` (game.js 91-100). The
callback's `alert` and `clearInterval` do not touch the game state. -/
def timerTick (s : State K) : State K :=
  if !s.gameOver then
    let s := { s with timeLeft := s.timeLeft - 1 }
    if s.timeLeft ≤ 0 then { s with gameOver := true } else s
  else s

/-! ## The physics step

`update` runs six blocks in sequence on the projectile; each block is one
definition, named after the comment that heads it in the source. -/

/-- Block "Apply gravity" (game.js 107). -/
def applyGravity (p : Projectile K) : Projectile K :=
  { p with velocityY := p.velocityY + gravity }

/-- Block "Apply air resistance" (game.js 110-111). -/
def applyAirResistance (p : Projectile K) : Projectile K :=
  { p with
    velocityX := p.velocityX * airResistance
    velocityY := p.velocityY * airResistance }

/-- Block "Update projectile position" (game.js 114-115). -/
def updatePosition (p : Projectile K) : Projectile K :=
  { p with x := p.x + p.velocityX, y := p.y + p.velocityY }

/-- Block "Ground collision" (game.js 118-122). -/
def groundCollision (p : Projectile K) : Projectile K :=
  if p.y + p.radius > canvasHeight then
    { p with
      y := canvasHeight - p.radius
      velocityY := p.velocityY * -0.6
      velocityX := p.velocityX * groundFriction }
  else p

/-- Block "Wall collisions" (game.js 125-127). -/
def wallCollision (p : Projectile K) : Projectile K :=
  if p.x + p.radius > canvasWidth ∨ p.x - p.radius < 0 then
    { p with velocityX := p.velocityX * -0.6 }
  else p

/-- Block "Check if the projectile hits the target" (game.js 130-135); `rx`
and `ry` are handed to `resetTarget`. -/
def checkTargetHit (M : JSMath K) (rx ry : K) (s : State K) : State K :=
  let distToTarget := M.hypot (s.projectile.x - s.target.x) (s.projectile.y - s.target.y)
  if distToTarget ≤ s.projectile.radius + s.target.radius ∧ s.target.hit = false then
    let s := { s with target := { s.target with hit := true } }
    let s := { s with successCount := s.successCount + 1 }
    resetTarget rx ry s
  else s

/-- The function `update()` (game.js 104-137). -/
def update (M : JSMath K) (rx ry : K) (s : State K) : State K :=
  if s.projectile.isFlying && !s.gameOver then
    let p := applyGravity s.projectile
    let p := applyAirResistance p
    let p := updatePosition p
    let p := groundCollision p
    let p := wallCollision p
    checkTargetHit M rx ry { s with projectile := p }
  else s

/-! ## Event sequences -/

/-- What can happen to the running game: the three pointer events, a rendered
frame (which calls `update`; the two numbers are the values `Math.random()`
returns if the target is moved) and a firing of the timer. -/
inductive Event (K : Type) where
  | mousedown (offsetX offsetY : K)
  | mousemove (offsetX offsetY : K)
  | mouseup
  | update (rx ry : K)
  | timerTick
deriving DecidableEq, Repr

/-- `Math.random()` returns a number in `[0, 1)`. -/
def IsRandom (r : K) : Prop := 0 ≤ r ∧ r < 1

instance (r : K) : Decidable (IsRandom r) := by
  unfold IsRandom; infer_instance

/-- The random values carried by an event are possible results of
`Math.random()`. -/
def Event.WellFormed : Event K → Prop
  | .update rx ry => IsRandom rx ∧ IsRandom ry
  | _ => True

/-- The effect of one event on the state. -/
def step (M : JSMath K) (e : Event K) (s : State K) : State K :=
  match e with
  | .mousedown offsetX offsetY => mousedown M offsetX offsetY s
  | .mousemove offsetX offsetY => mousemove M offsetX offsetY s
  | .mouseup => mouseup M s
  | .update rx ry => update M rx ry s
  | .timerTick => timerTick s

/-- The state after a list of events, the earliest first. -/
def run (M : JSMath K) (es : List (Event K)) (s : State K) : State K :=
  es.foldl (fun s e => step M e s) s

/-- The states the game can be in: an initial state, followed by any number
of events. -/
inductive Reachable (M : JSMath K) : State K → Prop where
  | init (rx ry : K) (hx : IsRandom rx) (hy : IsRandom ry) :
      Reachable M (initialState rx ry)
  | step (e : Event K) (s : State K) (he : e.WellFormed) (hs : Reachable M s) :
      Reachable M (step M e s)

end Code

/-! ## The `Math` functions over the reals -/

/-- The meaning of `Math.hypot`, `Math.atan2`, `Math.cos` and `Math.sin` on
real numbers; `atan2 y x` is the argument of `x + y i` in `(-π, π]`, and `0`
at the origin. -/
noncomputable def realMath : JSMath ℝ where
  hypot := fun a b => Real.sqrt (a ^ 2 + b ^ 2)
  atan2 := fun y x => Complex.arg ⟨x, y⟩
  cos := Real.cos
  sin := Real.sin

/-! ## Scenario states -/

section Scenarios

variable {K : Type} [LinearOrderedField K] [FloorRing K]

/-- A flying projectile one step above the ground line, moving right and down,
with the first target out of reach; the numbers are those of the ground-bounce
scenario. -/
def bounceState : State K :=
  { initialState (1 / 2) (1 / 2) with
    projectile :=
      { x := 100, y := 599, radius := 15, velocityX := 4, velocityY := 10,
        isFlying := true, depth := 1 } }

/-- A finished game: the time is up while the player was still aiming. -/
def overState : State K :=
  { initialState (1 / 2) (1 / 2) with
    slingshot :=
      { x := 150, y := 450, forkWidth := 30, forkHeight := 100, bandLength := 100,
        isDragging := true, angle := 0, force := 100 }
    timeLeft := 0
    gameOver := true }

/-- The events of a short game: press on the anchor, pull 100 to the left,
release, one frame, one second. -/
def shortGame : List (Event K) :=
  [.mousedown 150 450, .mousemove 50 450, .mouseup, .update 0 0, .timerTick]

/-- The events of a long pull: press on the anchor, then move the pointer 200
to the right of it. -/
def longPull : List (Event K) :=
  [.mousedown 150 450, .mousemove 350 450]

/-- A flying projectile that touches the right wall line (`785 + 15 = 800`),
far above the ground, moving right so fast that the next move is by 10. -/
def wallState : State K :=
  { initialState (1 / 2) (1 / 2) with
    projectile :=
      { x := 785, y := 100, radius := 15, velocityX := 1000 / 99, velocityY := 0,
        isFlying := true, depth := 1 } }

/-- A flying projectile 5 short of the right wall line (`780 + 15 = 795`),
far above the ground, moving right so fast that the next move is by 10. -/
def grazeState : State K :=
  { initialState (1 / 2) (1 / 2) with
    projectile :=
      { x := 780, y := 100, radius := 15, velocityX := 1000 / 99, velocityY := 0,
        isFlying := true, depth := 1 } }

/-- The events of a game nobody plays: the timer fires thirty times. -/
def idleGame : List (Event K) :=
  List.replicate 30 Event.timerTick

end Scenarios

/-- A running game whose projectile is about to arrive at `(410, 310)` while
the target, of radius 30, sits at `(400, 300)`: the hit scenario. -/
noncomputable def contactState : State ℝ :=
  { initialState 0 0 with
    projectile :=
      { x := 410, y := 310, radius := 15, velocityX := 0, velocityY := -0.5,
        isFlying := true, depth := 1 }
    target := { x := 400, y := 300, radius := 30, hit := false, depth := 1 } }

/-- A game in mid-aim with the band pulled to the left as far as it goes:
`angle = π`, `force = 120`: the launch scenario. -/
noncomputable def aimedState : State ℝ :=
  { initialState 0 0 with
    slingshot :=
      { x := 150, y := 450, forkWidth := 30, forkHeight := 100, bandLength := 100,
        isDragging := true, angle := Real.pi, force := 120 } }

/-- The state after `shortGame`, over the reals. -/
noncomputable def playedState : State ℝ :=
  run realMath shortGame (initialState (1 / 2) (1 / 2))

/-- The state after `longPull`, over the reals. -/
noncomputable def pulledState : State ℝ :=
  run realMath longPull (initialState 0 0)

/-- The state after a press on the anchor, over the reals. -/
noncomputable def pressedState : State ℝ :=
  step realMath (.mousedown 150 450) (initialState 0 0)

/-- The state after a press on the anchor, a pull 200 straight up and a
release, over the reals: the projectile is launched straight down. -/
noncomputable def launchedState : State ℝ :=
  mouseup realMath (mousemove realMath 150 250 pressedState)

/-- The state three frames after `launchedState`: the projectile is about to
reach the ground. -/
noncomputable def divingState : State ℝ :=
  update realMath 0 0 (update realMath 0 0 (update realMath 0 0 launchedState))

/-- The state after `idleGame`, over the reals: the time is up. -/
noncomputable def timedOutState : State ℝ :=
  run realMath idleGame (initialState 0 0)

section Invariants

variable {K : Type} [LinearOrderedField K]

/-- What holds of the game between any two events: the anchor stays at
`(150, 450)`, the target is not marked hit, the player is not dragging while
the projectile flies, and a projectile that is not flying rests at the anchor. -/
def RestInvariant (s : State K) : Prop :=
  s.slingshot.x = 150 ∧ s.slingshot.y = 450 ∧ s.target.hit = false ∧
  (s.slingshot.isDragging = true → s.projectile.isFlying = false) ∧
  (s.projectile.isFlying = false →
    s.projectile.x = 150 ∧ s.projectile.y = 450 ∧
    s.projectile.velocityX = 0 ∧ s.projectile.velocityY = 0)

/-- What else holds of the game between any two events: the radii and the
activation radius keep their initial values, the projectile does not reach
below the ground line, and the target sits on integer coordinates inside its
region. -/
def RegionInvariant (s : State K) : Prop :=
  s.projectile.radius = 15 ∧ s.target.radius = 30 ∧ s.slingshot.forkWidth = 30 ∧
  s.projectile.y + s.projectile.radius ≤ 600 ∧
  ∃ nx ny : Int, s.target.x = (nx : K) ∧ s.target.y = (ny : K) ∧
    400 ≤ nx ∧ nx ≤ 750 ∧ 100 ≤ ny ∧ ny ≤ 450

end Invariants

/-! ## Properties of the physics step -/

section Properties

variable {K : Type} [LinearOrderedField K]

/-- The target check never writes to the projectile. -/
theorem checkTargetHit_projectile [FloorRing K] (M : JSMath K) (rx ry : K) (s : State K) :
    (checkTargetHit M rx ry s).projectile = s.projectile := by
  unfold checkTargetHit
  dsimp only
  split <;> rfl

/-- The projectile after a step that passes the gate is the result of the five
projectile blocks, in the order of the source. -/
theorem update_projectile [FloorRing K] (M : JSMath K) (rx ry : K) (s : State K)
    (hf : s.projectile.isFlying = true) (hg : s.gameOver = false) :
    (update M rx ry s).projectile =
      wallCollision (groundCollision (updatePosition
        (applyAirResistance (applyGravity s.projectile)))) := by
  unfold update
  simp only [hf, hg, Bool.not_false, Bool.and_self, if_true]
  exact checkTargetHit_projectile M rx ry _

/-- A step is the identity when the gate is closed. -/
theorem update_gate [FloorRing K] (M : JSMath K) (rx ry : K) (s : State K)
    (h : s.gameOver = true ∨ s.projectile.isFlying = false) :
    update M rx ry s = s := by
  unfold update
  rcases h with h | h <;> simp [h]

/-- C1. For a flying projectile in a running game, one call of `update`
damps the horizontal velocity to `vx1 = 0.99 * vx`, adds gravity and then damps
the vertical velocity to `vy1 = 0.99 * (vy + 0.5)`, moves the projectile by
`(vx1, vy1)`, clamps `y` to `600 - radius` and multiplies `vy1` by `-0.6` and
`vx1` by `0.8` when `y + vy1 + radius > 600`, and multiplies the horizontal
velocity by `-0.6` when the moved `x` overlaps a wall; `x` is not clamped. -/
theorem update_kinematics [FloorRing K] (M : JSMath K) (rx ry : K) (s : State K)
    (hf : s.projectile.isFlying = true) (hg : s.gameOver = false) :
    let p := s.projectile
    let vx1 := 0.99 * p.velocityX
    let vy1 := 0.99 * (p.velocityY + 0.5)
    let x1 := p.x + vx1
    let ground := p.y + vy1 + p.radius > 600
    let wall := x1 + p.radius > 800 ∨ x1 - p.radius < 0
    let q := (update M rx ry s).projectile
    q.x = x1 ∧
    q.y = (if ground then 600 - p.radius else p.y + vy1) ∧
    q.velocityY = (if ground then -0.6 * vy1 else vy1) ∧
    q.velocityX = vx1 * (if ground then 0.8 else 1) * (if wall then -0.6 else 1) ∧
    q.radius = p.radius ∧ q.isFlying = true := by
  intro p vx1 vy1 x1 ground wall q
  have hq : q = wallCollision (groundCollision (updatePosition
      (applyAirResistance (applyGravity p)))) := update_projectile M rx ry s hf hg
  have hvx : p.velocityX * 0.99 = vx1 := mul_comm _ _
  have hvy : (p.velocityY + 0.5) * 0.99 = vy1 := mul_comm _ _
  by_cases hgr : ground <;> by_cases hw : wall
  all_goals
    have hgr' := hgr
    have hw' := hw
    simp only [ground, wall, x1, vx1, vy1] at hgr' hw'
    simp only [hq, wallCollision, groundCollision, updatePosition, applyAirResistance,
      applyGravity, canvasHeight, canvasWidth, gravity, airResistance, groundFriction,
      hvx, hvy, hgr, hw, if_true, if_false]
    simp only [mul_comm p.velocityX, mul_comm (p.velocityY + 0.5), hgr', hw', if_true,
      if_false, hf, and_true, true_and, mul_one]
    first
      | exact hf
      | exact ⟨mul_comm _ _, hf⟩

/-- C1 at the ground-bounce state `(100, 599)` with velocity `(4, 10)`: the
step yields position `(103.96, 585)` and velocity `(3.168, -6.237)`. -/
theorem update_kinematics_witness :
    (update realMath 0 0 bounceState).projectile.x = 2599 / 25 ∧
    (update realMath 0 0 bounceState).projectile.y = 585 ∧
    (update realMath 0 0 bounceState).projectile.velocityY = -6237 / 1000 ∧
    (update realMath 0 0 bounceState).projectile.velocityX = 396 / 125 := by
  have h := update_kinematics realMath 0 0 bounceState rfl rfl
  simp only [bounceState] at h
  obtain ⟨h1, h2, h3, h4, -, -⟩ := h
  refine ⟨h1.trans ?_, h2.trans ?_, h3.trans ?_, h4.trans ?_⟩ <;> norm_num

/-- C2. Containment: after one call of `update` on a flying projectile in a
running game, `projectile.y + projectile.radius ≤ canvas.height`, exactly,
for any position, velocity and radius. -/
theorem update_containment [FloorRing K] (M : JSMath K) (rx ry : K) (s : State K)
    (hf : s.projectile.isFlying = true) (hg : s.gameOver = false) :
    (update M rx ry s).projectile.y + (update M rx ry s).projectile.radius ≤ 600 := by
  show _ ≤ (canvasHeight : K)
  rw [update_projectile M rx ry s hf hg]
  generalize updatePosition (applyAirResistance (applyGravity s.projectile)) = p
  have hw : ∀ r : Projectile K, (wallCollision r).y = r.y ∧ (wallCollision r).radius = r.radius := by
    intro r
    unfold wallCollision
    split <;> exact ⟨rfl, rfl⟩
  rw [(hw _).1, (hw _).2]
  unfold groundCollision
  split
  · simp
  · next h => exact not_lt.mp h

/-- C2 at the ground-bounce state: the projectile ends exactly on the ground
line, `585 + 15 ≤ 600`. -/
theorem update_containment_witness :
    (update realMath 0 0 bounceState).projectile.y +
      (update realMath 0 0 bounceState).projectile.radius ≤ 600 :=
  update_containment realMath 0 0 bounceState rfl rfl

/-- The target check leaves everything but the target and the hit counter as
it was. -/
theorem checkTargetHit_frame [FloorRing K] (M : JSMath K) (rx ry : K) (s : State K) :
    (checkTargetHit M rx ry s).slingshot = s.slingshot ∧
    (checkTargetHit M rx ry s).timeLeft = s.timeLeft ∧
    (checkTargetHit M rx ry s).gameOver = s.gameOver ∧
    (checkTargetHit M rx ry s).mousePos = s.mousePos := by
  unfold checkTargetHit
  dsimp only
  split <;> exact ⟨rfl, rfl, rfl, rfl⟩

/-- C3. Hit counting: for a flying projectile in a running game whose target
is not marked hit, one call of `update` adds exactly 1 to `successCount` when
the distance from the projectile, where the move and the ground clamp of this
step have put it, to the target, where it was at the start of the step, is at
most the sum of the radii, and otherwise leaves `successCount` and the target
position as they were; the counter never grows by more than 1. -/
theorem update_hit_count [FloorRing K] (M : JSMath K) (rx ry : K) (s : State K)
    (hf : s.projectile.isFlying = true) (hg : s.gameOver = false)
    (hh : s.target.hit = false) :
    let q := groundCollision (updatePosition (applyAirResistance (applyGravity s.projectile)))
    let contact := M.hypot (q.x - s.target.x) (q.y - s.target.y) ≤ q.radius + s.target.radius
    (contact → (update M rx ry s).successCount = s.successCount + 1) ∧
    (¬contact → (update M rx ry s).successCount = s.successCount ∧
      (update M rx ry s).target.x = s.target.x ∧ (update M rx ry s).target.y = s.target.y) ∧
    (update M rx ry s).successCount ≤ s.successCount + 1 ∧
    (update M rx ry s).projectile.x = q.x ∧ (update M rx ry s).projectile.y = q.y ∧
    q.radius = s.projectile.radius := by
  intro q contact
  have hw : (wallCollision q).x = q.x ∧ (wallCollision q).y = q.y ∧
      (wallCollision q).radius = q.radius := by
    unfold wallCollision
    split <;> exact ⟨rfl, rfl, rfl⟩
  have hr : q.radius = s.projectile.radius := by
    simp only [q, groundCollision, updatePosition, applyAirResistance, applyGravity]
    split <;> rfl
  have hu : update M rx ry s = checkTargetHit M rx ry { s with projectile := wallCollision q } := by
    unfold update
    simp only [hf, hg, Bool.not_false, Bool.and_self, if_true]
  have hp : (update M rx ry s).projectile = wallCollision q := by
    rw [hu]
    exact checkTargetHit_projectile M rx ry _
  by_cases hc : contact
  · have hc' : M.hypot ((wallCollision q).x - s.target.x) ((wallCollision q).y - s.target.y) ≤
        (wallCollision q).radius + s.target.radius := by
      rw [hw.1, hw.2.1, hw.2.2]
      exact hc
    have hs : (update M rx ry s).successCount = s.successCount + 1 := by
      rw [hu]
      unfold checkTargetHit
      simp only [hc', hh, and_self, if_true]
      rfl
    refine ⟨fun _ => hs, fun h => absurd hc h, hs.le, ?_, ?_, hr⟩
    · rw [hp, hw.1]
    · rw [hp, hw.2.1]
  · have hc' : ¬ M.hypot ((wallCollision q).x - s.target.x) ((wallCollision q).y - s.target.y) ≤
        (wallCollision q).radius + s.target.radius := by
      rw [hw.1, hw.2.1, hw.2.2]
      exact hc
    have hs : update M rx ry s = { s with projectile := wallCollision q } := by
      rw [hu]
      unfold checkTargetHit
      simp only [hc', false_and, if_false]
    refine ⟨fun h => absurd h hc, fun _ => ?_, ?_, ?_, ?_, hr⟩
    · rw [hs]
      exact ⟨rfl, rfl, rfl⟩
    · rw [hs]
      exact Nat.le_succ _
    · rw [hp, hw.1]
    · rw [hp, hw.2.1]

/-- C3 on the hit scenario: the projectile arrives at `(410, 310)`, at
distance `√200 ≤ 15 + 30` from the target at `(400, 300)`, and the counter
goes from 0 to 1. -/
theorem update_hit_count_witness :
    (update realMath 0 0 contactState).successCount = 1 ∧
    (update realMath 0 0 contactState).projectile.x = 410 ∧
    (update realMath 0 0 contactState).projectile.y = 310 := by
  have h := update_hit_count realMath 0 0 contactState rfl rfl rfl
  have hq : groundCollision (updatePosition (applyAirResistance
      (applyGravity contactState.projectile))) =
        { x := 410, y := 310, radius := 15, velocityX := 0, velocityY := 0,
          isFlying := true, depth := 1 } := by
    simp only [contactState, groundCollision, updatePosition, applyAirResistance, applyGravity,
      canvasHeight, gravity, airResistance]
    norm_num
  simp only [hq] at h
  obtain ⟨h1, -, -, h4, h5, -⟩ := h
  refine ⟨h1 ?_, h4, h5⟩
  simp only [contactState, realMath]
  rw [Real.sqrt_le_iff]
  norm_num

/-! ## Launch and gates -/

/-- C4. Launch velocity: when the player is dragging and the game is running,
`mouseup` ends the drag, sets the projectile flying with velocity
`-0.3 * force * (cos angle, sin angle)` and leaves its position alone. -/
theorem mouseup_launch (M : JSMath K) (s : State K)
    (hd : s.slingshot.isDragging = true) (hg : s.gameOver = false) :
    (mouseup M s).slingshot.isDragging = false ∧
    (mouseup M s).projectile.isFlying = true ∧
    (mouseup M s).projectile.velocityX = -0.3 * s.slingshot.force * M.cos s.slingshot.angle ∧
    (mouseup M s).projectile.velocityY = -0.3 * s.slingshot.force * M.sin s.slingshot.angle ∧
    (mouseup M s).projectile.x = s.projectile.x ∧
    (mouseup M s).projectile.y = s.projectile.y := by
  have hc : (s.slingshot.isDragging && !s.gameOver) = true := by simp [hd, hg]
  unfold mouseup
  rw [if_pos hc]
  refine ⟨rfl, rfl, ?_, ?_, rfl, rfl⟩ <;> dsimp only <;> ring

/-- C4 on the launch scenario: with `angle = π` and `force = 120` the
projectile leaves with velocity `(36, 0)`, to the right. -/
theorem mouseup_launch_witness :
    (mouseup realMath aimedState).projectile.isFlying = true ∧
    (mouseup realMath aimedState).projectile.velocityX = 36 ∧
    (mouseup realMath aimedState).projectile.velocityY = 0 := by
  obtain ⟨-, h2, h3, h4, -, -⟩ := mouseup_launch realMath aimedState rfl rfl
  refine ⟨h2, h3.trans ?_, h4.trans ?_⟩
  · simp only [aimedState, realMath, Real.cos_pi]
    norm_num
  · simp only [aimedState, realMath, Real.sin_pi]
    norm_num

/-- The pointer handlers are the identity when their gate is closed. -/
theorem mousemove_gate (M : JSMath K) (offsetX offsetY : K) (s : State K)
    (h : s.gameOver = true ∨ s.slingshot.isDragging = false) :
    mousemove M offsetX offsetY s = s := by
  unfold mousemove
  rcases h with h | h <;> simp [h]

/-- Releasing the button does nothing when the gate is closed. -/
theorem mouseup_gate (M : JSMath K) (s : State K)
    (h : s.gameOver = true ∨ s.slingshot.isDragging = false) :
    mouseup M s = s := by
  unfold mouseup
  rcases h with h | h <;> simp [h]

/-- C6. Gates: `update` returns the state it was given whenever the game is
over or the projectile is not flying; `mousemove` (so also `mousePos`, `angle`
and `force`) and `mouseup` return the state they were given whenever the game
is over or the player is not dragging. -/
theorem gates_closed [FloorRing K] (M : JSMath K) (s : State K) :
    ((s.gameOver = true ∨ s.projectile.isFlying = false) →
      ∀ rx ry : K, update M rx ry s = s) ∧
    ((s.gameOver = true ∨ s.slingshot.isDragging = false) →
      (∀ offsetX offsetY : K, mousemove M offsetX offsetY s = s) ∧ mouseup M s = s) :=
  ⟨fun h rx ry => update_gate M rx ry s h,
   fun h => ⟨fun offsetX offsetY => mousemove_gate M offsetX offsetY s h, mouseup_gate M s h⟩⟩

/-- C6 on a finished game in which the player is still dragging: a frame, a
pointer move and a release all leave the state as it is. -/
theorem gates_closed_witness :
    update realMath 0 0 overState = overState ∧
    mousemove realMath 30 40 overState = overState ∧
    mouseup realMath overState = overState :=
  ⟨(gates_closed realMath overState).1 (Or.inl rfl) 0 0,
   ((gates_closed realMath overState).2 (Or.inl rfl)).1 30 40,
   ((gates_closed realMath overState).2 (Or.inl rfl)).2⟩

/-! ## Bounces -/

/-- C7 as stated fails: from `y = 599`, `velocityY = 10`, `radius = 15` (and
`velocityX = 4`) the step leaves `velocityY = -6.237`, not `-6`, because
gravity and air resistance act before the bounce; `velocityX` is
`0.8 * (0.99 * 4)`, not `0.8 * 4`. -/
theorem ground_bounce_scenario_counterexample :
    (bounceState : State ℝ).projectile.isFlying = true ∧
    (bounceState : State ℝ).gameOver = false ∧
    (bounceState : State ℝ).projectile.y = 599 ∧
    (bounceState : State ℝ).projectile.velocityY = 10 ∧
    (bounceState : State ℝ).projectile.radius = 15 ∧
    (bounceState : State ℝ).projectile.velocityX = 4 ∧
    (update realMath 0 0 bounceState).projectile.y = 585 ∧
    (update realMath 0 0 bounceState).projectile.velocityY = -6237 / 1000 ∧
    (update realMath 0 0 bounceState).projectile.velocityY ≠ -6 ∧
    (update realMath 0 0 bounceState).projectile.velocityX = 396 / 125 ∧
    (update realMath 0 0 bounceState).projectile.velocityX ≠ 0.8 * 4 := by
  refine ⟨rfl, rfl, rfl, rfl, rfl, rfl, ?_⟩
  rw [update_projectile realMath 0 0 bounceState rfl rfl]
  simp only [bounceState, wallCollision, groundCollision, updatePosition, applyAirResistance,
    applyGravity, canvasHeight, canvasWidth, gravity, airResistance, groundFriction]
  norm_num

/-- C7, amended. Ground-bounce scenario: for a flying projectile with
`y = 599`, `velocityY = 10`, `radius = 15` in a running game, one call of
`update` leaves `y = 585` and `velocityY = -0.6 * (0.99 * (10 + 0.5)) = -6.237`,
and `velocityX` is the air-damped `0.99 * velocityX` multiplied by the ground
friction `0.8`, and by `-0.6` as well when the moved projectile overlaps a
wall. -/
theorem ground_bounce_scenario [FloorRing K] (M : JSMath K) (rx ry : K) (s : State K)
    (hf : s.projectile.isFlying = true) (hg : s.gameOver = false)
    (hy : s.projectile.y = 599) (hv : s.projectile.velocityY = 10)
    (hr : s.projectile.radius = 15) :
    (update M rx ry s).projectile.y = 585 ∧
    (update M rx ry s).projectile.velocityY = -6.237 ∧
    (update M rx ry s).projectile.velocityY = -0.6 * (0.99 * (10 + 0.5)) ∧
    (update M rx ry s).projectile.velocityX =
      0.8 * (0.99 * s.projectile.velocityX) *
        (if s.projectile.x + 0.99 * s.projectile.velocityX + 15 > 800 ∨
            s.projectile.x + 0.99 * s.projectile.velocityX - 15 < 0 then -0.6 else 1) := by
  rw [update_projectile M rx ry s hf hg]
  have hground : s.projectile.y + (s.projectile.velocityY + gravity) * airResistance +
      s.projectile.radius > (canvasHeight : K) := by
    rw [hy, hv, hr]
    norm_num [gravity, airResistance, canvasHeight]
  simp only [wallCollision, groundCollision, updatePosition, applyAirResistance,
    applyGravity, hground, if_true]
  simp only [hy, hv, hr, canvasHeight, canvasWidth, gravity, airResistance, groundFriction,
    mul_comm s.projectile.velocityX]
  split <;> norm_num <;> ring

/-- C7, amended, at the scenario state with `velocityX = 4`: the bounce
leaves `y = 585`, `velocityY = -6.237` and `velocityX = 3.168`. -/
theorem ground_bounce_scenario_witness :
    (update realMath 0 0 bounceState).projectile.y = 585 ∧
    (update realMath 0 0 bounceState).projectile.velocityY = -6.237 ∧
    (update realMath 0 0 bounceState).projectile.velocityX = 3.168 := by
  obtain ⟨h1, h2, -, h4⟩ := ground_bounce_scenario realMath 0 0 bounceState rfl rfl rfl rfl rfl
  refine ⟨h1, h2, h4.trans ?_⟩
  simp only [bounceState]
  norm_num

/-- Multiplying by a factor of magnitude at most 1 does not increase the
magnitude. -/
theorem abs_mul_factor_le (v c : K) (hc : |c| ≤ 1) : |v * c| ≤ |v| := by
  rw [abs_mul]
  exact mul_le_of_le_one_right (abs_nonneg v) hc

/-- The magnitudes of the factors `0.99`, `0.8` and `-0.6` are at most 1. -/
theorem abs_factors_le_one :
    |(airResistance : K)| ≤ 1 ∧ |(groundFriction : K)| ≤ 1 ∧ |(-0.6 : K)| ≤ 1 := by
  refine ⟨abs_le.mpr ⟨?_, ?_⟩, abs_le.mpr ⟨?_, ?_⟩, abs_le.mpr ⟨?_, ?_⟩⟩ <;>
    norm_num [airResistance, groundFriction]

/-- The ground block never increases the magnitude of either velocity
component. -/
theorem groundCollision_damps (p : Projectile K) :
    |(groundCollision p).velocityX| ≤ |p.velocityX| ∧
    |(groundCollision p).velocityY| ≤ |p.velocityY| := by
  unfold groundCollision
  split
  · exact ⟨abs_mul_factor_le _ _ abs_factors_le_one.2.1,
      abs_mul_factor_le _ _ abs_factors_le_one.2.2⟩
  · exact ⟨le_refl _, le_refl _⟩

/-- The wall block never increases the magnitude of the horizontal velocity
and does not touch the vertical one. -/
theorem wallCollision_damps (p : Projectile K) :
    |(wallCollision p).velocityX| ≤ |p.velocityX| ∧
    (wallCollision p).velocityY = p.velocityY := by
  unfold wallCollision
  split
  · exact ⟨abs_mul_factor_le _ _ abs_factors_le_one.2.2, rfl⟩
  · exact ⟨le_refl _, rfl⟩

/-- C8. Energy damping. With `p1` the projectile after gravity and air
resistance, `p2` after the move and `p3` after the ground block of a call of
`update` that passes the gate: if the ground response is triggered, the final
`|velocityY|` is at most `|p1.velocityY|` and `|p3.velocityX|` is at most
`|p1.velocityX|`; if the wall response is triggered, the final `|velocityX|`
is at most `|p3.velocityX|`.  And for every call of `update`, gate open or
closed, `|velocityX|` does not increase. -/
theorem update_damping [FloorRing K] (M : JSMath K) (rx ry : K) (s : State K) :
    (s.projectile.isFlying = true → s.gameOver = false →
      let p1 := applyAirResistance (applyGravity s.projectile)
      let p2 := updatePosition p1
      let p3 := groundCollision p2
      let q := (update M rx ry s).projectile
      p2.velocityX = p1.velocityX ∧ p2.velocityY = p1.velocityY ∧
      (p2.y + p2.radius > canvasHeight →
        |q.velocityY| ≤ |p1.velocityY| ∧ |p3.velocityX| ≤ |p1.velocityX|) ∧
      (p3.x + p3.radius > canvasWidth ∨ p3.x - p3.radius < 0 →
        |q.velocityX| ≤ |p3.velocityX|)) ∧
    |(update M rx ry s).projectile.velocityX| ≤ |s.projectile.velocityX| := by
  constructor
  · intro hf hg p1 p2 p3 q
    have hq : q = wallCollision p3 := update_projectile M rx ry s hf hg
    refine ⟨rfl, rfl, fun _ => ⟨?_, (groundCollision_damps p2).1⟩, fun _ => ?_⟩
    · rw [hq, (wallCollision_damps p3).2]
      exact (groundCollision_damps p2).2
    · rw [hq]
      exact (wallCollision_damps p3).1
  · by_cases h : s.gameOver = true ∨ s.projectile.isFlying = false
    · rw [update_gate M rx ry s h]
    · have hf : s.projectile.isFlying = true := by
        cases hb : s.projectile.isFlying
        · exact absurd (Or.inr hb) h
        · rfl
      have hg : s.gameOver = false := by
        cases hb : s.gameOver
        · rfl
        · exact absurd (Or.inl hb) h
      rw [update_projectile M rx ry s hf hg]
      calc |(wallCollision (groundCollision (updatePosition
              (applyAirResistance (applyGravity s.projectile))))).velocityX|
          ≤ |(groundCollision (updatePosition
              (applyAirResistance (applyGravity s.projectile)))).velocityX| :=
            (wallCollision_damps _).1
        _ ≤ |(updatePosition (applyAirResistance (applyGravity s.projectile))).velocityX| :=
            (groundCollision_damps _).1
        _ = |s.projectile.velocityX * airResistance| := rfl
        _ ≤ |s.projectile.velocityX| := abs_mul_factor_le _ _ abs_factors_le_one.1

/-- C8 at the ground-bounce state: the ground response is triggered
(`609.395 + 15 > 600`), so the vertical speed after the step is at most the
`10.395` that entered the bounce, and the horizontal speed does not grow. -/
theorem update_damping_witness :
    |(update realMath 0 0 bounceState).projectile.velocityY| ≤ |(10.395 : ℝ)| ∧
    |(update realMath 0 0 bounceState).projectile.velocityX| ≤ |(4 : ℝ)| := by
  obtain ⟨h1, h2⟩ := update_damping realMath 0 0 bounceState
  obtain ⟨-, -, hground, -⟩ := h1 rfl rfl
  refine ⟨le_of_le_of_eq (hground ?_).1 ?_, h2⟩
  · simp only [bounceState, updatePosition, applyAirResistance, applyGravity, canvasHeight,
      gravity, airResistance]
    norm_num
  · simp only [bounceState, applyAirResistance, applyGravity, gravity, airResistance]
    norm_num

/-! ## Reachable states -/

/-- Running well-formed events from a reachable state ends in a reachable
state. -/
theorem reachable_run [FloorRing K] (M : JSMath K) (es : List (Event K)) :
    ∀ s : State K, Reachable M s → (∀ e ∈ es, e.WellFormed) → Reachable M (run M es s) := by
  induction es with
  | nil => intro s hs _; exact hs
  | cons e es ih =>
    intro s hs hes
    have he : e.WellFormed := hes e (List.mem_cons_self e es)
    have hrest : ∀ e' ∈ es, e'.WellFormed := fun e' h' => hes e' (List.mem_cons_of_mem e h')
    exact ih (step M e s) (Reachable.step e s he hs) hrest

/-- The five projectile blocks keep `isFlying` as it is. -/
theorem blocks_isFlying (p : Projectile K) :
    (wallCollision (groundCollision (updatePosition
      (applyAirResistance (applyGravity p))))).isFlying = p.isFlying := by
  unfold wallCollision groundCollision
  split <;> split <;> rfl

/-- The target check keeps an unmarked target unmarked. -/
theorem checkTargetHit_hit [FloorRing K] (M : JSMath K) (rx ry : K) (s : State K)
    (hh : s.target.hit = false) : (checkTargetHit M rx ry s).target.hit = false := by
  unfold checkTargetHit
  dsimp only
  split
  · rfl
  · exact hh

/-- What `update` does to the parts of the state other than the target
position and the counter when the gate is open. -/
theorem update_frame [FloorRing K] (M : JSMath K) (rx ry : K) (s : State K)
    (hf : s.projectile.isFlying = true) (hg : s.gameOver = false) :
    (update M rx ry s).slingshot = s.slingshot ∧
    (update M rx ry s).projectile.isFlying = true ∧
    (s.target.hit = false → (update M rx ry s).target.hit = false) := by
  have hu : update M rx ry s = checkTargetHit M rx ry
      { s with projectile := wallCollision (groundCollision (updatePosition
        (applyAirResistance (applyGravity s.projectile)))) } := by
    unfold update
    simp only [hf, hg, Bool.not_false, Bool.and_self, if_true]
  refine ⟨?_, ?_, fun hh => ?_⟩
  · rw [hu]
    exact (checkTargetHit_frame M rx ry _).1
  · rw [update_projectile M rx ry s hf hg, blocks_isFlying]
    exact hf
  · rw [hu]
    exact checkTargetHit_hit M rx ry _ hh

/-- A flag is either set or clear. -/
theorem gate_cases (a b : Bool) : (a = true ∧ b = false) ∨ (b = true ∨ a = false) := by
  cases a <;> cases b <;> simp

/-- Every event keeps the rest invariant. -/
theorem step_restInvariant [FloorRing K] (M : JSMath K) (e : Event K) (s : State K)
    (h : RestInvariant s) : RestInvariant (step M e s) := by
  obtain ⟨hx, hy, hh, hd, hr⟩ := h
  cases e with
  | mousedown offsetX offsetY =>
    show RestInvariant (mousedown M offsetX offsetY s)
    unfold mousedown
    dsimp only
    split
    · exact ⟨hx, hy, hh, fun _ => rfl, fun _ => ⟨hx, hy, rfl, rfl⟩⟩
    · exact ⟨hx, hy, hh, hd, hr⟩
  | mousemove offsetX offsetY =>
    show RestInvariant (mousemove M offsetX offsetY s)
    unfold mousemove
    dsimp only
    split
    · exact ⟨hx, hy, hh, hd, hr⟩
    · exact ⟨hx, hy, hh, hd, hr⟩
  | mouseup =>
    show RestInvariant (mouseup M s)
    unfold mouseup
    dsimp only
    split
    · exact ⟨hx, hy, hh, fun h => absurd h (by simp), fun h => absurd h (by simp)⟩
    · exact ⟨hx, hy, hh, hd, hr⟩
  | update rx ry =>
    show RestInvariant (update M rx ry s)
    rcases gate_cases s.projectile.isFlying s.gameOver with ⟨hf, hg⟩ | hc
    · obtain ⟨h1, h2, h3⟩ := update_frame M rx ry s hf hg
      refine ⟨by rw [h1]; exact hx, by rw [h1]; exact hy, h3 hh, fun h => ?_, fun h => ?_⟩
      · rw [h1] at h
        rw [hd h] at hf
        exact absurd hf (by simp)
      · rw [h2] at h
        exact absurd h (by simp)
    · rw [update_gate M rx ry s hc]
      exact ⟨hx, hy, hh, hd, hr⟩
  | timerTick =>
    show RestInvariant (timerTick s)
    unfold timerTick
    dsimp only
    split
    · split
      · exact ⟨hx, hy, hh, hd, hr⟩
      · exact ⟨hx, hy, hh, hd, hr⟩
    · exact ⟨hx, hy, hh, hd, hr⟩

/-- The rest invariant holds in every reachable state. -/
theorem reachable_restInvariant [FloorRing K] (M : JSMath K) (s : State K)
    (h : Reachable M s) : RestInvariant s := by
  induction h with
  | init rx ry _ _ =>
    refine ⟨rfl, ?_, rfl, fun h => rfl, fun _ => ⟨rfl, ?_, rfl, rfl⟩⟩ <;>
      norm_num [initialState, canvasHeight]
  | step e s _ _ ih => exact step_restInvariant M e s ih

/-- An event either leaves `force` alone or sets it to `min(120, hypot a b)`
for some `a` and `b`. -/
theorem step_force [FloorRing K] (M : JSMath K) (e : Event K) (s : State K) :
    (step M e s).slingshot.force = s.slingshot.force ∨
    ∃ a b : K, (step M e s).slingshot.force = min 120 (M.hypot a b) := by
  cases e with
  | mousedown offsetX offsetY =>
    show (mousedown M offsetX offsetY s).slingshot.force = _ ∨ _
    unfold mousedown
    dsimp only
    split <;> exact Or.inl rfl
  | mousemove offsetX offsetY =>
    show (mousemove M offsetX offsetY s).slingshot.force = _ ∨
      ∃ a b : K, (mousemove M offsetX offsetY s).slingshot.force = _
    unfold mousemove
    dsimp only
    split
    · exact Or.inr ⟨_, _, rfl⟩
    · exact Or.inl rfl
  | mouseup =>
    show (mouseup M s).slingshot.force = _ ∨ _
    unfold mouseup
    dsimp only
    split <;> exact Or.inl rfl
  | update rx ry =>
    show (update M rx ry s).slingshot.force = _ ∨ _
    rcases gate_cases s.projectile.isFlying s.gameOver with ⟨hf, hg⟩ | hc
    · rw [(update_frame M rx ry s hf hg).1]
      exact Or.inl rfl
    · rw [update_gate M rx ry s hc]
      exact Or.inl rfl
  | timerTick =>
    show (timerTick s).slingshot.force = _ ∨ _
    unfold timerTick
    dsimp only
    split
    · split <;> exact Or.inl rfl
    · exact Or.inl rfl

/-- Every event keeps `force` within `[0, 120]`, provided `hypot` is never
negative. -/
theorem step_force_bounds [FloorRing K] (M : JSMath K) (hM : ∀ a b : K, 0 ≤ M.hypot a b)
    (e : Event K) (s : State K)
    (h : 0 ≤ s.slingshot.force ∧ s.slingshot.force ≤ 120) :
    0 ≤ (step M e s).slingshot.force ∧ (step M e s).slingshot.force ≤ 120 := by
  rcases step_force M e s with hs | ⟨a, b, hs⟩
  · rw [hs]
    exact h
  · rw [hs]
    exact ⟨le_min (by norm_num) (hM a b), min_le_left _ _⟩

/-- In every reachable state `force` lies in `[0, 120]`, provided `hypot` is
never negative. -/
theorem reachable_force_bounds [FloorRing K] (M : JSMath K)
    (hM : ∀ a b : K, 0 ≤ M.hypot a b) (s : State K) (h : Reachable M s) :
    0 ≤ s.slingshot.force ∧ s.slingshot.force ≤ 120 := by
  induction h with
  | init rx ry _ _ => exact ⟨le_refl _, by norm_num [initialState]⟩
  | step e s _ _ ih => exact step_force_bounds M hM e s ih

/-- A press on the anchor itself, at distance `0 ≤ 30`, starts a drag. -/
theorem pressedState_flags :
    pressedState.slingshot.isDragging = true ∧ pressedState.gameOver = false := by
  have hc : realMath.hypot (150 - (initialState (0 : ℝ) 0).slingshot.x)
      (450 - (initialState (0 : ℝ) 0).slingshot.y) ≤
        (initialState (0 : ℝ) 0).slingshot.forkWidth := by
    simp only [realMath, initialState, canvasHeight]
    norm_num
  show (mousedown realMath 150 450 (initialState 0 0)).slingshot.isDragging = true ∧
    (mousedown realMath 150 450 (initialState 0 0)).gameOver = false
  simp only [mousedown, hc, if_true]
  exact ⟨trivial, rfl⟩

/-- The initial state is reachable and so is the state after a press. -/
theorem reachable_pressed : Reachable realMath pressedState :=
  Reachable.step _ _ trivial (Reachable.init 0 0 ⟨le_refl _, one_pos⟩ ⟨le_refl _, one_pos⟩)

/-- The events of the scenario games carry admissible random values. -/
theorem scenarios_wellFormed :
    (∀ e ∈ (shortGame : List (Event ℝ)), e.WellFormed) ∧
    (∀ e ∈ (longPull : List (Event ℝ)), e.WellFormed) := by
  constructor <;> intro e he <;> simp only [shortGame, longPull, List.mem_cons,
    List.mem_singleton, List.not_mem_nil, or_false] at he
  · rcases he with rfl | rfl | rfl | rfl | rfl <;>
      simp [Event.WellFormed, IsRandom]
  · rcases he with rfl | rfl <;> simp [Event.WellFormed]

/-- C5. Pull clamp: in every reachable state `0 ≤ slingshot.force ≤ 120`, and
a `mousemove` that takes effect (dragging, game running) sets `force` to
`min(120, distance(pointer, anchor))`, the anchor being `(150, 450)`, however
far away the pointer is. -/
theorem force_clamped (s : State ℝ) (h : Reachable realMath s) :
    0 ≤ s.slingshot.force ∧ s.slingshot.force ≤ 120 ∧
    ∀ offsetX offsetY : ℝ, s.slingshot.isDragging = true → s.gameOver = false →
      (mousemove realMath offsetX offsetY s).slingshot.force =
        min 120 (Real.sqrt ((offsetX - 150) ^ 2 + (offsetY - 450) ^ 2)) := by
  have hb := reachable_force_bounds realMath (fun a b => Real.sqrt_nonneg _) s h
  obtain ⟨hx, hy, -⟩ := reachable_restInvariant realMath s h
  refine ⟨hb.1, hb.2, fun offsetX offsetY hd hg => ?_⟩
  have hc : (s.slingshot.isDragging && !s.gameOver) = true := by simp [hd, hg]
  unfold mousemove
  rw [if_pos hc]
  simp only [realMath, hx, hy]

/-- C5 after a press on the anchor and a pointer move to `(350, 450)`, 200
away from the anchor: `force` is within `[0, 120]`, and it is `120`. -/
theorem force_clamped_witness :
    0 ≤ pulledState.slingshot.force ∧ pulledState.slingshot.force ≤ 120 ∧
    (mousemove realMath 350 450 pressedState).slingshot.force = 120 := by
  have h1 := force_clamped pulledState
    (reachable_run realMath longPull _
      (Reachable.init 0 0 ⟨le_refl _, one_pos⟩ ⟨le_refl _, one_pos⟩) scenarios_wellFormed.2)
  have h2 := (force_clamped pressedState reachable_pressed).2.2 350 450
    pressedState_flags.1 pressedState_flags.2
  refine ⟨h1.1, h1.2.1, h2.trans ?_⟩
  have hs : Real.sqrt (((350 : ℝ) - 150) ^ 2 + (450 - 450) ^ 2) = 200 := by
    rw [show ((350 : ℝ) - 150) ^ 2 + (450 - 450) ^ 2 = 200 ^ 2 by norm_num]
    exact Real.sqrt_sq (by norm_num)
  rw [hs]
  norm_num

/-- The state after the short game is reachable. -/
theorem reachable_played : Reachable realMath playedState :=
  reachable_run realMath shortGame _
    (Reachable.init (1 / 2) (1 / 2) ⟨by norm_num, by norm_num⟩ ⟨by norm_num, by norm_num⟩)
    scenarios_wellFormed.1

/-- C9. `target.hit` is never observable as true: it is false in every
reachable state and stays false after any further event, whatever the random
source returns; `resetTarget` always ends with `hit = false`, and `update`
marks the target only on the path that calls `resetTarget`. -/
theorem target_hit_never_observable [FloorRing K] (M : JSMath K) (s : State K)
    (h : Reachable M s) :
    s.target.hit = false ∧
    (∀ e : Event K, (step M e s).target.hit = false) ∧
    (∀ (rx ry : K) (t : State K), (resetTarget rx ry t).target.hit = false) := by
  have hs := reachable_restInvariant M s h
  exact ⟨hs.2.2.1, fun e => (step_restInvariant M e s hs).2.2.1, fun _ _ _ => rfl⟩

/-- C9 after the short game (press, pull, release, one frame, one second):
the target is not marked hit, nor is it after one more frame. -/
theorem target_hit_never_observable_witness :
    playedState.target.hit = false ∧
    (update realMath (1 / 2) (1 / 2) playedState).target.hit = false :=
  ⟨(target_hit_never_observable realMath playedState reachable_played).1,
   (target_hit_never_observable realMath playedState reachable_played).2.1
     (.update (1 / 2) (1 / 2))⟩

/-- C10. Rest-or-flying invariant: in every reachable state the player is not
dragging while the projectile flies, and a projectile that is not flying sits
at the anchor `(slingshot.x, slingshot.y) = (150, 450)` with zero velocity; so
every event other than `mouseup` leaves a resting projectile with zero
velocity. -/
theorem rest_or_flying [FloorRing K] (M : JSMath K) (s : State K) (h : Reachable M s) :
    ¬ (s.slingshot.isDragging = true ∧ s.projectile.isFlying = true) ∧
    (s.projectile.isFlying = false →
      s.projectile.x = s.slingshot.x ∧ s.projectile.y = s.slingshot.y ∧
      s.slingshot.x = 150 ∧ s.slingshot.y = 450 ∧
      s.projectile.velocityX = 0 ∧ s.projectile.velocityY = 0) ∧
    (∀ e : Event K, e ≠ Event.mouseup → s.projectile.isFlying = false →
      (step M e s).projectile.velocityX = 0 ∧ (step M e s).projectile.velocityY = 0) := by
  obtain ⟨hx, hy, -, hd, hr⟩ := reachable_restInvariant M s h
  refine ⟨fun hb => ?_, fun hf => ?_, fun e he hf => ?_⟩
  · rw [hd hb.1] at hb
    exact absurd hb.2 (by simp)
  · obtain ⟨h1, h2, h3, h4⟩ := hr hf
    exact ⟨h1.trans hx.symm, h2.trans hy.symm, hx, hy, h3, h4⟩
  · obtain ⟨-, -, h3, h4⟩ := hr hf
    cases e with
    | mousedown offsetX offsetY =>
      show (mousedown M offsetX offsetY s).projectile.velocityX = 0 ∧
        (mousedown M offsetX offsetY s).projectile.velocityY = 0
      unfold mousedown
      dsimp only
      split
      · exact ⟨rfl, rfl⟩
      · exact ⟨h3, h4⟩
    | mousemove offsetX offsetY =>
      show (mousemove M offsetX offsetY s).projectile.velocityX = 0 ∧
        (mousemove M offsetX offsetY s).projectile.velocityY = 0
      unfold mousemove
      dsimp only
      split <;> exact ⟨h3, h4⟩
    | mouseup => exact absurd rfl he
    | update rx ry =>
      show (update M rx ry s).projectile.velocityX = 0 ∧
        (update M rx ry s).projectile.velocityY = 0
      rw [update_gate M rx ry s (Or.inr hf)]
      exact ⟨h3, h4⟩
    | timerTick =>
      show (timerTick s).projectile.velocityX = 0 ∧ (timerTick s).projectile.velocityY = 0
      unfold timerTick
      dsimp only
      split
      · split <;> exact ⟨h3, h4⟩
      · exact ⟨h3, h4⟩

/-- C10 after a press on the anchor: the player is dragging, so the projectile
is not flying and rests at `(150, 450)` with zero velocity, and a frame leaves
its velocity zero. -/
theorem rest_or_flying_witness :
    pressedState.projectile.isFlying = false ∧
    pressedState.projectile.x = 150 ∧ pressedState.projectile.y = 450 ∧
    pressedState.projectile.velocityX = 0 ∧ pressedState.projectile.velocityY = 0 ∧
    (update realMath 0 0 pressedState).projectile.velocityX = 0 := by
  obtain ⟨h1, h2, h3⟩ := rest_or_flying realMath pressedState reachable_pressed
  have hf : pressedState.projectile.isFlying = false := by
    cases hb : pressedState.projectile.isFlying
    · rfl
    · exact absurd ⟨pressedState_flags.1, hb⟩ h1
  obtain ⟨hx, hy, hax, hay, hvx, hvy⟩ := h2 hf
  exact ⟨hf, hx.trans hax, hy.trans hay, hvx, hvy,
    (h3 (.update 0 0) (fun h => Event.noConfusion h) hf).1⟩

/-! ## The pointer handlers -/

/-- What a press leaves alone: the target, the counter, the clock, the pointer
record, both radii and every field of the slingshot but `isDragging`. -/
theorem mousedown_frame (M : JSMath K) (offsetX offsetY : K) (s : State K) :
    (mousedown M offsetX offsetY s).target = s.target ∧
    (mousedown M offsetX offsetY s).successCount = s.successCount ∧
    (mousedown M offsetX offsetY s).timeLeft = s.timeLeft ∧
    (mousedown M offsetX offsetY s).gameOver = s.gameOver ∧
    (mousedown M offsetX offsetY s).mousePos = s.mousePos ∧
    (mousedown M offsetX offsetY s).projectile.radius = s.projectile.radius ∧
    (mousedown M offsetX offsetY s).slingshot.x = s.slingshot.x ∧
    (mousedown M offsetX offsetY s).slingshot.y = s.slingshot.y ∧
    (mousedown M offsetX offsetY s).slingshot.forkWidth = s.slingshot.forkWidth ∧
    (mousedown M offsetX offsetY s).slingshot.angle = s.slingshot.angle ∧
    (mousedown M offsetX offsetY s).slingshot.force = s.slingshot.force := by
  unfold mousedown
  dsimp only
  split <;> exact ⟨rfl, rfl, rfl, rfl, rfl, rfl, rfl, rfl, rfl, rfl, rfl⟩

/-- What a pointer move leaves alone: the target, the counter, the clock, the
projectile and the slingshot's geometry and `isDragging`. -/
theorem mousemove_frame (M : JSMath K) (offsetX offsetY : K) (s : State K) :
    (mousemove M offsetX offsetY s).target = s.target ∧
    (mousemove M offsetX offsetY s).successCount = s.successCount ∧
    (mousemove M offsetX offsetY s).timeLeft = s.timeLeft ∧
    (mousemove M offsetX offsetY s).gameOver = s.gameOver ∧
    (mousemove M offsetX offsetY s).projectile = s.projectile ∧
    (mousemove M offsetX offsetY s).slingshot.x = s.slingshot.x ∧
    (mousemove M offsetX offsetY s).slingshot.y = s.slingshot.y ∧
    (mousemove M offsetX offsetY s).slingshot.forkWidth = s.slingshot.forkWidth ∧
    (mousemove M offsetX offsetY s).slingshot.isDragging = s.slingshot.isDragging := by
  unfold mousemove
  dsimp only
  split <;> exact ⟨rfl, rfl, rfl, rfl, rfl, rfl, rfl, rfl, rfl⟩

/-- What a release leaves alone: the target, the counter, the clock, the
pointer record, the projectile's position and radius and every field of the
slingshot but `isDragging`. -/
theorem mouseup_frame (M : JSMath K) (s : State K) :
    (mouseup M s).target = s.target ∧
    (mouseup M s).successCount = s.successCount ∧
    (mouseup M s).timeLeft = s.timeLeft ∧
    (mouseup M s).gameOver = s.gameOver ∧
    (mouseup M s).mousePos = s.mousePos ∧
    (mouseup M s).projectile.radius = s.projectile.radius ∧
    (mouseup M s).projectile.x = s.projectile.x ∧
    (mouseup M s).projectile.y = s.projectile.y ∧
    (mouseup M s).slingshot.x = s.slingshot.x ∧
    (mouseup M s).slingshot.y = s.slingshot.y ∧
    (mouseup M s).slingshot.forkWidth = s.slingshot.forkWidth ∧
    (mouseup M s).slingshot.angle = s.slingshot.angle ∧
    (mouseup M s).slingshot.force = s.slingshot.force := by
  unfold mouseup
  dsimp only
  split <;> exact ⟨rfl, rfl, rfl, rfl, rfl, rfl, rfl, rfl, rfl, rfl, rfl, rfl, rfl⟩

/-- The timer writes `timeLeft` and `gameOver` only. -/
theorem timerTick_frame {T : Type} (s : State T) :
    (timerTick s).slingshot = s.slingshot ∧ (timerTick s).projectile = s.projectile ∧
    (timerTick s).target = s.target ∧ (timerTick s).successCount = s.successCount ∧
    (timerTick s).mousePos = s.mousePos := by
  unfold timerTick
  dsimp only
  split
  · split <;> exact ⟨rfl, rfl, rfl, rfl, rfl⟩
  · exact ⟨rfl, rfl, rfl, rfl, rfl⟩

/-- C17. Launch Controller frame: for every state and pointer position,
`mousedown`, `mousemove` and `mouseup` leave `target.x`, `target.y`,
`target.hit`, `successCount`, `timeLeft`, `gameOver` and both radii as they
were; what they may change is the aim state and the projectile. -/
theorem pointer_handlers_frame (M : JSMath K) (offsetX offsetY : K) (s : State K) :
    ∀ t : State K,
      t = mousedown M offsetX offsetY s ∨ t = mousemove M offsetX offsetY s ∨
        t = mouseup M s →
      t.target.x = s.target.x ∧ t.target.y = s.target.y ∧ t.target.hit = s.target.hit ∧
      t.successCount = s.successCount ∧ t.timeLeft = s.timeLeft ∧
      t.gameOver = s.gameOver ∧ t.projectile.radius = s.projectile.radius ∧
      t.target.radius = s.target.radius := by
  intro t ht
  rcases ht with rfl | rfl | rfl
  · obtain ⟨h1, h2, h3, h4, -, h6, -⟩ := mousedown_frame M offsetX offsetY s
    exact ⟨by rw [h1], by rw [h1], by rw [h1], h2, h3, h4, h6, by rw [h1]⟩
  · obtain ⟨h1, h2, h3, h4, h5, -⟩ := mousemove_frame M offsetX offsetY s
    exact ⟨by rw [h1], by rw [h1], by rw [h1], h2, h3, h4, by rw [h5], by rw [h1]⟩
  · obtain ⟨h1, h2, h3, h4, -, h6, -⟩ := mouseup_frame M s
    exact ⟨by rw [h1], by rw [h1], by rw [h1], h2, h3, h4, h6, by rw [h1]⟩

/-- C17 on the finished-aim state `aimedState`: a release launches the
projectile and leaves the target, the counter and the clock alone. -/
theorem pointer_handlers_frame_witness :
    (mouseup realMath aimedState).target.x = aimedState.target.x ∧
    (mouseup realMath aimedState).successCount = aimedState.successCount ∧
    (mouseup realMath aimedState).timeLeft = aimedState.timeLeft :=
  have h := pointer_handlers_frame realMath 0 0 aimedState (mouseup realMath aimedState)
    (Or.inr (Or.inr rfl))
  ⟨h.1, h.2.2.2.1, h.2.2.2.2.1⟩

/-- C20. Aim values are not reset by a press: `mousedown` leaves
`slingshot.angle` and `slingshot.force` as they were, so a press within the
activation radius followed by a release, in a running game, launches with
velocity `-0.3 * force * (cos angle, sin angle)` for the angle and force of the
state before the press; from the initial state this sets `isFlying = true`
with velocity exactly `(0, 0)`. -/
theorem press_keeps_aim [FloorRing K] (M : JSMath K) (offsetX offsetY : K) (s : State K) :
    (mousedown M offsetX offsetY s).slingshot.angle = s.slingshot.angle ∧
    (mousedown M offsetX offsetY s).slingshot.force = s.slingshot.force ∧
    (M.hypot (offsetX - s.slingshot.x) (offsetY - s.slingshot.y) ≤ s.slingshot.forkWidth →
      s.gameOver = false →
      (mouseup M (mousedown M offsetX offsetY s)).projectile.isFlying = true ∧
      (mouseup M (mousedown M offsetX offsetY s)).projectile.velocityX =
        -0.3 * s.slingshot.force * M.cos s.slingshot.angle ∧
      (mouseup M (mousedown M offsetX offsetY s)).projectile.velocityY =
        -0.3 * s.slingshot.force * M.sin s.slingshot.angle) ∧
    (∀ rx ry : K, M.hypot (offsetX - 150) (offsetY - 450) ≤ 30 →
      (mouseup M (mousedown M offsetX offsetY (initialState rx ry))).projectile.isFlying = true ∧
      (mouseup M (mousedown M offsetX offsetY (initialState rx ry))).projectile.velocityX = 0 ∧
      (mouseup M (mousedown M offsetX offsetY (initialState rx ry))).projectile.velocityY = 0) := by
  have key : ∀ t : State K,
      M.hypot (offsetX - t.slingshot.x) (offsetY - t.slingshot.y) ≤ t.slingshot.forkWidth →
      t.gameOver = false →
      (mouseup M (mousedown M offsetX offsetY t)).projectile.isFlying = true ∧
      (mouseup M (mousedown M offsetX offsetY t)).projectile.velocityX =
        -0.3 * t.slingshot.force * M.cos t.slingshot.angle ∧
      (mouseup M (mousedown M offsetX offsetY t)).projectile.velocityY =
        -0.3 * t.slingshot.force * M.sin t.slingshot.angle := by
    intro t hin hg
    have hd : (mousedown M offsetX offsetY t).slingshot.isDragging = true := by
      unfold mousedown
      dsimp only
      rw [if_pos hin]
    obtain ⟨-, -, -, h4, -, -, -, -, -, h10, h11⟩ := mousedown_frame M offsetX offsetY t
    have hc : ((mousedown M offsetX offsetY t).slingshot.isDragging &&
        !(mousedown M offsetX offsetY t).gameOver) = true := by
      rw [hd, h4, hg]
      rfl
    unfold mouseup
    rw [if_pos hc]
    dsimp only
    rw [h10, h11]
    refine ⟨rfl, ?_, ?_⟩ <;> ring
  obtain ⟨-, -, -, -, -, -, -, -, -, h10, h11⟩ := mousedown_frame M offsetX offsetY s
  refine ⟨h10, h11, key s, fun rx ry hin => ?_⟩
  have h := key (initialState rx ry) (by
    simpa [initialState, canvasHeight, show (600 : K) - 150 = 450 by norm_num] using hin) rfl
  obtain ⟨h1, h2, h3⟩ := h
  refine ⟨h1, h2.trans ?_, h3.trans ?_⟩ <;> simp [initialState]

/-- C20 from the initial state: a press on the anchor followed at once by a
release sets the projectile flying with velocity `(0, 0)`. -/
theorem press_keeps_aim_witness :
    (mouseup realMath (mousedown realMath 150 450 (initialState 0 0))).projectile.isFlying
      = true ∧
    (mouseup realMath (mousedown realMath 150 450 (initialState 0 0))).projectile.velocityX
      = 0 ∧
    (mouseup realMath (mousedown realMath 150 450 (initialState 0 0))).projectile.velocityY
      = 0 :=
  (press_keeps_aim realMath 150 450 (initialState 0 0)).2.2.2 0 0
    (by simp [realMath])

/-! ## The target region and the ground line -/

/-- For integer bounds `a ≤ b` and a random value in `[0, 1)`, `getRandomInt`
returns an integer between `a` and `b`. -/
theorem getRandomInt_range [FloorRing K] (r : K) (hr : IsRandom r) (a b : Int)
    (hab : a ≤ b) :
    ∃ n : Int, getRandomInt r (a : K) (b : K) = (n : K) ∧ a ≤ n ∧ n ≤ b := by
  have hba : (0 : K) ≤ (b : K) - (a : K) := sub_nonneg.mpr (Int.cast_le.mpr hab)
  refine ⟨⌊r * ((b : K) - (a : K)) + (a : K)⌋, rfl, ?_, ?_⟩
  · rw [Int.le_floor]
    have h0 : 0 ≤ r * ((b : K) - (a : K)) := mul_nonneg hr.1 hba
    linarith
  · have h1 : r * ((b : K) - (a : K)) ≤ (b : K) - (a : K) :=
      mul_le_of_le_one_left hba hr.2.le
    have h2 : ((⌊r * ((b : K) - (a : K)) + (a : K)⌋ : Int) : K) ≤ (b : K) :=
      le_trans (Int.floor_le _) (by linarith)
    exact Int.cast_le.mp h2

/-- The two coordinates `resetTarget` and the top-level code draw for the
target are integers in `[400, 750]` and `[100, 450]`. -/
theorem target_draw_range [FloorRing K] (rx ry : K) (hx : IsRandom rx) (hy : IsRandom ry) :
    ∃ nx ny : Int,
      getRandomInt rx ((canvasWidth : K) / 2) (canvasWidth - 50) = (nx : K) ∧
      getRandomInt ry (100 : K) (canvasHeight - 150) = (ny : K) ∧
      400 ≤ nx ∧ nx ≤ 750 ∧ 100 ≤ ny ∧ ny ≤ 450 := by
  obtain ⟨nx, h1, h2, h3⟩ := getRandomInt_range rx hx 400 750 (by norm_num)
  obtain ⟨ny, h4, h5, h6⟩ := getRandomInt_range ry hy 100 450 (by norm_num)
  have e1 : ((canvasWidth : K) / 2) = ((400 : Int) : K) := by norm_num [canvasWidth]
  have e2 : ((canvasWidth : K) - 50) = ((750 : Int) : K) := by norm_num [canvasWidth]
  have e3 : (100 : K) = ((100 : Int) : K) := by norm_num
  have e4 : ((canvasHeight : K) - 150) = ((450 : Int) : K) := by norm_num [canvasHeight]
  refine ⟨nx, ny, ?_, ?_, h2, h3, h5, h6⟩
  · rw [e1, e2]
    exact h1
  · rw [e3, e4]
    exact h4

/-- The target check either leaves the target alone or replaces its
coordinates by two fresh draws. -/
theorem checkTargetHit_target [FloorRing K] (M : JSMath K) (rx ry : K) (s : State K) :
    (checkTargetHit M rx ry s).target.radius = s.target.radius ∧
    (((checkTargetHit M rx ry s).target.x = s.target.x ∧
        (checkTargetHit M rx ry s).target.y = s.target.y) ∨
      ((checkTargetHit M rx ry s).target.x =
          getRandomInt rx ((canvasWidth : K) / 2) (canvasWidth - 50) ∧
        (checkTargetHit M rx ry s).target.y =
          getRandomInt ry (100 : K) (canvasHeight - 150))) := by
  unfold checkTargetHit
  dsimp only
  split
  · exact ⟨rfl, Or.inr ⟨rfl, rfl⟩⟩
  · exact ⟨rfl, Or.inl ⟨rfl, rfl⟩⟩

/-- The five projectile blocks keep the radius and leave the projectile on or
above the ground line. -/
theorem blocks_ground_line (p : Projectile K) :
    (wallCollision (groundCollision (updatePosition
      (applyAirResistance (applyGravity p))))).radius = p.radius ∧
    (wallCollision (groundCollision (updatePosition
      (applyAirResistance (applyGravity p))))).y + p.radius ≤ 600 := by
  have hw : ∀ r : Projectile K,
      (wallCollision r).y = r.y ∧ (wallCollision r).radius = r.radius := by
    intro r
    unfold wallCollision
    split <;> exact ⟨rfl, rfl⟩
  rw [(hw _).1, (hw _).2]
  unfold groundCollision
  split
  · refine ⟨rfl, ?_⟩
    show (canvasHeight : K) - p.radius + p.radius ≤ 600
    simp [canvasHeight]
  · next h =>
    refine ⟨rfl, ?_⟩
    exact not_lt.mp h

/-- With the gate open, `update` writes the target through the target check,
applied to a state that still holds the incoming target. -/
theorem update_target [FloorRing K] (M : JSMath K) (rx ry : K) (s : State K)
    (hf : s.projectile.isFlying = true) (hg : s.gameOver = false) :
    (update M rx ry s).target.radius = s.target.radius ∧
    (update M rx ry s).gameOver = s.gameOver ∧
    (update M rx ry s).timeLeft = s.timeLeft ∧
    (update M rx ry s).mousePos = s.mousePos ∧
    (((update M rx ry s).target.x = s.target.x ∧ (update M rx ry s).target.y = s.target.y) ∨
      ((update M rx ry s).target.x =
          getRandomInt rx ((canvasWidth : K) / 2) (canvasWidth - 50) ∧
        (update M rx ry s).target.y = getRandomInt ry (100 : K) (canvasHeight - 150))) := by
  have hu : update M rx ry s = checkTargetHit M rx ry
      { s with projectile := wallCollision (groundCollision (updatePosition
        (applyAirResistance (applyGravity s.projectile)))) } := by
    unfold update
    simp only [hf, hg, Bool.not_false, Bool.and_self, if_true]
  rw [hu]
  obtain ⟨-, f2, f3, f4⟩ := checkTargetHit_frame M rx ry
    { s with projectile := wallCollision (groundCollision (updatePosition
        (applyAirResistance (applyGravity s.projectile)))) }
  obtain ⟨t1, t2⟩ := checkTargetHit_target M rx ry
    { s with projectile := wallCollision (groundCollision (updatePosition
        (applyAirResistance (applyGravity s.projectile)))) }
  exact ⟨t1, f3, f2, f4, t2⟩

/-- Every well-formed event keeps the region invariant, given the rest
invariant. -/
theorem step_regionInvariant [FloorRing K] (M : JSMath K) (e : Event K) (s : State K)
    (he : e.WellFormed) (hrest : RestInvariant s) (h : RegionInvariant s) :
    RegionInvariant (step M e s) := by
  obtain ⟨hr, htr, hfw, hy, nx, ny, hnx, hny, hb⟩ := h
  cases e with
  | mousedown offsetX offsetY =>
    obtain ⟨f1, -, -, -, -, f6, -, -, f9, -, -⟩ := mousedown_frame M offsetX offsetY s
    show RegionInvariant (mousedown M offsetX offsetY s)
    refine ⟨f6.trans hr, by rw [f1]; exact htr, f9.trans hfw, ?_,
      nx, ny, by rw [f1]; exact hnx, by rw [f1]; exact hny, hb⟩
    rw [f6]
    unfold mousedown
    dsimp only
    split
    · show s.slingshot.y + s.projectile.radius ≤ 600
      rw [hrest.2.1, hr]
      norm_num
    · exact hy
  | mousemove offsetX offsetY =>
    obtain ⟨f1, -, -, -, f5, -, -, f8, -⟩ := mousemove_frame M offsetX offsetY s
    show RegionInvariant (mousemove M offsetX offsetY s)
    exact ⟨by rw [f5]; exact hr, by rw [f1]; exact htr, f8.trans hfw, by rw [f5]; exact hy,
      nx, ny, by rw [f1]; exact hnx, by rw [f1]; exact hny, hb⟩
  | mouseup =>
    obtain ⟨f1, -, -, -, -, f6, -, f8, -, -, f11, -, -⟩ := mouseup_frame M s
    show RegionInvariant (mouseup M s)
    exact ⟨f6.trans hr, by rw [f1]; exact htr, f11.trans hfw, by rw [f6, f8]; exact hy,
      nx, ny, by rw [f1]; exact hnx, by rw [f1]; exact hny, hb⟩
  | update rx ry =>
    show RegionInvariant (update M rx ry s)
    rcases gate_cases s.projectile.isFlying s.gameOver with ⟨hf, hg⟩ | hc
    · obtain ⟨u1, -, -⟩ := update_frame M rx ry s hf hg
      obtain ⟨t1, -, -, -, t2⟩ := update_target M rx ry s hf hg
      obtain ⟨b1, b2⟩ := blocks_ground_line s.projectile
      have hp := update_projectile M rx ry s hf hg
      refine ⟨by rw [hp, b1]; exact hr, t1.trans htr, by rw [u1]; exact hfw, ?_, ?_⟩
      · rw [hp, b1]
        exact b2
      · rcases t2 with ⟨tx, ty⟩ | ⟨tx, ty⟩
        · exact ⟨nx, ny, tx.trans hnx, ty.trans hny, hb⟩
        · obtain ⟨mx, my, d1, d2, d3⟩ := target_draw_range rx ry he.1 he.2
          exact ⟨mx, my, tx.trans d1, ty.trans d2, d3⟩
    · rw [update_gate M rx ry s hc]
      exact ⟨hr, htr, hfw, hy, nx, ny, hnx, hny, hb⟩
  | timerTick =>
    obtain ⟨f1, f2, f3, -, -⟩ := timerTick_frame s
    show RegionInvariant (timerTick s)
    exact ⟨by rw [f2]; exact hr, by rw [f3]; exact htr, by rw [f1]; exact hfw,
      by rw [f2]; exact hy, nx, ny, by rw [f3]; exact hnx, by rw [f3]; exact hny, hb⟩

/-- The region invariant holds in every reachable state. -/
theorem reachable_regionInvariant [FloorRing K] (M : JSMath K) (s : State K)
    (h : Reachable M s) : RegionInvariant s := by
  induction h with
  | init rx ry hx hy =>
    obtain ⟨mx, my, d1, d2, d3⟩ := target_draw_range rx ry hx hy
    refine ⟨rfl, rfl, rfl, ?_, mx, my, d1, d2, d3⟩
    show (canvasHeight : K) - 150 + 15 ≤ 600
    norm_num [canvasHeight]
  | step e s he hs ih =>
    exact step_regionInvariant M e s he (reachable_restInvariant M s hs) ih

/-- C13. Target region: for a random value in `[0, 1)` and integers
`min ≤ max`, `getRandomInt(min, max)` is an integer `n` with `min ≤ n ≤ max`;
so the first target and every target placed by `resetTarget` has integer
coordinates with `400 ≤ x ≤ 750` and `100 ≤ y ≤ 450`, and this holds in every
reachable state. -/
theorem target_region [FloorRing K] (M : JSMath K) :
    (∀ (r : K) (a b : Int), IsRandom r → a ≤ b →
      ∃ n : Int, getRandomInt r (a : K) (b : K) = (n : K) ∧ a ≤ n ∧ n ≤ b) ∧
    (∀ (rx ry : K) (t : State K), IsRandom rx → IsRandom ry →
      ∃ nx ny : Int, (resetTarget rx ry t).target.x = (nx : K) ∧
        (resetTarget rx ry t).target.y = (ny : K) ∧
        400 ≤ nx ∧ nx ≤ 750 ∧ 100 ≤ ny ∧ ny ≤ 450) ∧
    (∀ s : State K, Reachable M s →
      ∃ nx ny : Int, s.target.x = (nx : K) ∧ s.target.y = (ny : K) ∧
        400 ≤ nx ∧ nx ≤ 750 ∧ 100 ≤ ny ∧ ny ≤ 450) := by
  refine ⟨fun r a b hr hab => getRandomInt_range r hr a b hab,
    fun rx ry t hx hy => target_draw_range rx ry hx hy,
    fun s hs => (reachable_regionInvariant M s hs).2.2.2.2⟩

/-- C13 with the largest draws that can occur in the model, `r = 0.999`: the
target lands on `(749, 449)`, inside `[400, 750] × [100, 450]`, and the target
of the state after the short game lies in the region. -/
theorem target_region_witness :
    getRandomInt (0.999 : ℝ) ((400 : Int) : ℝ) ((750 : Int) : ℝ) = ((749 : Int) : ℝ) ∧
    (∃ n : Int, getRandomInt (0.999 : ℝ) ((400 : Int) : ℝ) ((750 : Int) : ℝ) = (n : ℝ) ∧
      400 ≤ n ∧ n ≤ 750) ∧
    (∃ nx ny : Int, playedState.target.x = (nx : ℝ) ∧ playedState.target.y = (ny : ℝ) ∧
      400 ≤ nx ∧ nx ≤ 750 ∧ 100 ≤ ny ∧ ny ≤ 450) := by
  refine ⟨?_, (target_region realMath).1 0.999 400 750 ⟨by norm_num, by norm_num⟩
    (by norm_num), (target_region realMath).2.2 playedState reachable_played⟩
  unfold getRandomInt
  have h : ⌊(0.999 : ℝ) * (((750 : Int) : ℝ) - ((400 : Int) : ℝ)) + ((400 : Int) : ℝ)⌋ = 749 := by
    rw [Int.floor_eq_iff]
    constructor <;> norm_num
  rw [h]

/-! ## Presses -/

/-- C11. A press at distance at most `slingshot.forkWidth` from the anchor,
the boundary included, sets `isDragging = true`, `isFlying = false`, puts the
projectile on the anchor and zeroes its velocity; a press farther away returns
the state it was given.  In every reachable state the activation radius
`forkWidth` is `30` and the anchor is `(150, 450)`. -/
theorem mousedown_beginAim [FloorRing K] (M : JSMath K) (offsetX offsetY : K)
    (s : State K) :
    (M.hypot (offsetX - s.slingshot.x) (offsetY - s.slingshot.y) ≤ s.slingshot.forkWidth →
      (mousedown M offsetX offsetY s).slingshot.isDragging = true ∧
      (mousedown M offsetX offsetY s).projectile.isFlying = false ∧
      (mousedown M offsetX offsetY s).projectile.x = s.slingshot.x ∧
      (mousedown M offsetX offsetY s).projectile.y = s.slingshot.y ∧
      (mousedown M offsetX offsetY s).projectile.velocityX = 0 ∧
      (mousedown M offsetX offsetY s).projectile.velocityY = 0) ∧
    (s.slingshot.forkWidth < M.hypot (offsetX - s.slingshot.x) (offsetY - s.slingshot.y) →
      mousedown M offsetX offsetY s = s) ∧
    (Reachable M s →
      s.slingshot.forkWidth = 30 ∧ s.slingshot.x = 150 ∧ s.slingshot.y = 450) := by
  refine ⟨fun hin => ?_, fun hout => ?_, fun hs => ?_⟩
  · unfold mousedown
    dsimp only
    rw [if_pos hin]
    exact ⟨rfl, rfl, rfl, rfl, rfl, rfl⟩
  · unfold mousedown
    dsimp only
    rw [if_neg (not_le.mpr hout)]
  · obtain ⟨hx, hy, -⟩ := reachable_restInvariant M s hs
    exact ⟨(reachable_regionInvariant M s hs).2.2.1, hx, hy⟩

/-- C11 from the initial state: a press at `(180, 450)`, exactly 30 from the
anchor, starts a drag; a press at `(181, 450)` does nothing. -/
theorem mousedown_beginAim_witness :
    (mousedown realMath 180 450 (initialState 0 0)).slingshot.isDragging = true ∧
    mousedown realMath 181 450 (initialState 0 0) = initialState 0 0 := by
  have h30 : Real.sqrt ((30 : ℝ) ^ 2 + 0 ^ 2) = 30 := by
    rw [show ((30 : ℝ) ^ 2 + 0 ^ 2) = 30 ^ 2 by norm_num]
    exact Real.sqrt_sq (by norm_num)
  have h31 : Real.sqrt ((31 : ℝ) ^ 2 + 0 ^ 2) = 31 := by
    rw [show ((31 : ℝ) ^ 2 + 0 ^ 2) = 31 ^ 2 by norm_num]
    exact Real.sqrt_sq (by norm_num)
  refine ⟨((mousedown_beginAim realMath 180 450 (initialState 0 0)).1 ?_).1,
    (mousedown_beginAim realMath 181 450 (initialState 0 0)).2.1 ?_⟩
  · show Real.sqrt (((180 : ℝ) - 150) ^ 2 + (450 - (canvasHeight - 150)) ^ 2) ≤ 30
    rw [show ((180 : ℝ) - 150) ^ 2 + (450 - (canvasHeight - 150)) ^ 2 = 30 ^ 2 + 0 ^ 2 by
      norm_num [canvasHeight], h30]
  · show (30 : ℝ) < Real.sqrt (((181 : ℝ) - 150) ^ 2 + (450 - (canvasHeight - 150)) ^ 2)
    rw [show ((181 : ℝ) - 150) ^ 2 + (450 - (canvasHeight - 150)) ^ 2 = 31 ^ 2 + 0 ^ 2 by
      norm_num [canvasHeight], h31]
    norm_num

/-- The timer alone ends the game: after thirty firings from the initial
state the clock is at zero, the game is over and nothing else has changed. -/
theorem timedOutState_eq :
    timedOutState = { initialState 0 0 with timeLeft := 0, gameOver := true } := by
  simp [timedOutState, idleGame, run, step, timerTick, List.replicate, initialState,
    timeLimit]

/-- C14 fails for `mousedown`: the state after thirty timer firings is
reachable and has `gameOver = true` and `isDragging = false`, and a press on
the anchor `(150, 450)` still sets `isDragging = true`, so the slingshot is
mutated after game over. -/
theorem mousedown_after_gameOver :
    Reachable realMath timedOutState ∧ timedOutState.gameOver = true ∧
    timedOutState.slingshot.isDragging = false ∧
    (mousedown realMath 150 450 timedOutState).slingshot.isDragging = true ∧
    (mousedown realMath 150 450 timedOutState).slingshot ≠ timedOutState.slingshot := by
  have hr : Reachable realMath timedOutState :=
    reachable_run realMath idleGame _
      (Reachable.init 0 0 ⟨le_refl _, one_pos⟩ ⟨le_refl _, one_pos⟩)
      (fun e he => by
        rw [List.eq_of_mem_replicate he]
        trivial)
  have hd : (mousedown realMath 150 450 timedOutState).slingshot.isDragging = true := by
    rw [timedOutState_eq]
    simp [mousedown, realMath, initialState, canvasHeight]
    norm_num
  have h0 : timedOutState.slingshot.isDragging = false := by
    rw [timedOutState_eq]
    rfl
  refine ⟨hr, ?_, h0, hd, fun h => ?_⟩
  · rw [timedOutState_eq]
  · rw [h, h0] at hd
    exact absurd hd (by simp)

/-! ## Aim and release -/

/-- The cosine and sine of `atan2 dy dx` away from the origin are `dx / d` and
`dy / d`, with `d` the length of `(dx, dy)`. -/
theorem cos_sin_atan2 (dx dy : ℝ) (hd : 0 < Real.sqrt (dx ^ 2 + dy ^ 2)) :
    realMath.cos (realMath.atan2 dy dx) = dx / Real.sqrt (dx ^ 2 + dy ^ 2) ∧
    realMath.sin (realMath.atan2 dy dx) = dy / Real.sqrt (dx ^ 2 + dy ^ 2) := by
  have habs : Complex.abs ⟨dx, dy⟩ = Real.sqrt (dx ^ 2 + dy ^ 2) := by
    rw [Complex.abs_apply, Complex.normSq_mk]
    congr 1
    ring
  have hz : (⟨dx, dy⟩ : ℂ) ≠ 0 := by
    intro h
    rw [h, map_zero] at habs
    rw [← habs] at hd
    exact lt_irrefl _ hd
  constructor
  · show Real.cos (Complex.arg ⟨dx, dy⟩) = _
    rw [Complex.cos_arg hz, habs]
  · show Real.sin (Complex.arg ⟨dx, dy⟩) = _
    rw [Complex.sin_arg, habs]

/-- A pointer move that takes effect followed by a release: the projectile
flies from where it was, with the velocity computed from the new aim. -/
theorem aim_release (M : JSMath K) (offsetX offsetY : K) (s : State K)
    (hd : s.slingshot.isDragging = true) (hg : s.gameOver = false) :
    (mouseup M (mousemove M offsetX offsetY s)).projectile.isFlying = true ∧
    (mouseup M (mousemove M offsetX offsetY s)).projectile.velocityX =
      min 120 (M.hypot (offsetX - s.slingshot.x) (offsetY - s.slingshot.y)) *
        M.cos (M.atan2 (offsetY - s.slingshot.y) (offsetX - s.slingshot.x)) * -0.3 ∧
    (mouseup M (mousemove M offsetX offsetY s)).projectile.velocityY =
      min 120 (M.hypot (offsetX - s.slingshot.x) (offsetY - s.slingshot.y)) *
        M.sin (M.atan2 (offsetY - s.slingshot.y) (offsetX - s.slingshot.x)) * -0.3 ∧
    (mouseup M (mousemove M offsetX offsetY s)).projectile.x = s.projectile.x ∧
    (mouseup M (mousemove M offsetX offsetY s)).projectile.y = s.projectile.y ∧
    (mouseup M (mousemove M offsetX offsetY s)).projectile.radius = s.projectile.radius ∧
    (mouseup M (mousemove M offsetX offsetY s)).gameOver = false := by
  have hc : (s.slingshot.isDragging && !s.gameOver) = true := by simp [hd, hg]
  have hm : mousemove M offsetX offsetY s =
      { s with
        mousePos := { x := offsetX, y := offsetY }
        slingshot :=
          { s.slingshot with
            angle := M.atan2 (offsetY - s.slingshot.y) (offsetX - s.slingshot.x)
            force := min 120 (M.hypot (offsetX - s.slingshot.x) (offsetY - s.slingshot.y)) } } := by
    unfold mousemove
    rw [if_pos hc]
  rw [hm]
  unfold mouseup
  dsimp only
  rw [if_pos hc]
  exact ⟨rfl, rfl, rfl, rfl, rfl, rfl, hg⟩

/-- C12. Slingshot semantics end to end: while dragging in a running game, a
pointer move to `p` at distance `d` from the anchor `A` followed by a release
launches the projectile with velocity `0.3 * min(120, d) / d * (A - p)` when
`d > 0`, from the pointer toward the anchor, and with velocity `(0, 0)` when
`d = 0`; the speed is `0.3 * min(120, d)`, at most `36`. -/
theorem slingshot_semantics (s : State ℝ) (offsetX offsetY : ℝ)
    (hd : s.slingshot.isDragging = true) (hg : s.gameOver = false) :
    let d := Real.sqrt ((offsetX - s.slingshot.x) ^ 2 + (offsetY - s.slingshot.y) ^ 2)
    let q := (mouseup realMath (mousemove realMath offsetX offsetY s)).projectile
    q.isFlying = true ∧
    (0 < d →
      q.velocityX = 0.3 * min 120 d / d * (s.slingshot.x - offsetX) ∧
      q.velocityY = 0.3 * min 120 d / d * (s.slingshot.y - offsetY)) ∧
    (d = 0 → q.velocityX = 0 ∧ q.velocityY = 0) ∧
    Real.sqrt (q.velocityX ^ 2 + q.velocityY ^ 2) = 0.3 * min 120 d ∧
    0.3 * min 120 d ≤ 36 := by
  intro d q
  obtain ⟨h1, h2, h3, -⟩ := aim_release realMath offsetX offsetY s hd hg
  have hd0 : 0 ≤ d := Real.sqrt_nonneg _
  have hm0 : 0 ≤ min 120 d := le_min (by norm_num) hd0
  have hdd : realMath.hypot (offsetX - s.slingshot.x) (offsetY - s.slingshot.y) = d := rfl
  rw [hdd] at h2 h3
  have hpos : 0 < d →
      q.velocityX = 0.3 * min 120 d / d * (s.slingshot.x - offsetX) ∧
      q.velocityY = 0.3 * min 120 d / d * (s.slingshot.y - offsetY) := by
    intro hp
    obtain ⟨hcos, hsin⟩ := cos_sin_atan2 (offsetX - s.slingshot.x) (offsetY - s.slingshot.y) hp
    have hne : d ≠ 0 := ne_of_gt hp
    constructor
    · show (mouseup realMath (mousemove realMath offsetX offsetY s)).projectile.velocityX = _
      rw [h2, hcos]
      show min 120 d * ((offsetX - s.slingshot.x) / d) * -0.3 = _
      field_simp
      ring
    · show (mouseup realMath (mousemove realMath offsetX offsetY s)).projectile.velocityY = _
      rw [h3, hsin]
      show min 120 d * ((offsetY - s.slingshot.y) / d) * -0.3 = _
      field_simp
      ring
  have hzero : d = 0 → q.velocityX = 0 ∧ q.velocityY = 0 := by
    intro hz
    have hm : min 120 d = 0 := by
      rw [hz]
      norm_num
    constructor
    · show (mouseup realMath (mousemove realMath offsetX offsetY s)).projectile.velocityX = 0
      rw [h2, hm]
      ring
    · show (mouseup realMath (mousemove realMath offsetX offsetY s)).projectile.velocityY = 0
      rw [h3, hm]
      ring
  refine ⟨h1, hpos, hzero, ?_, ?_⟩
  · rcases eq_or_lt_of_le hd0 with hz | hp
    · obtain ⟨hx, hy⟩ := hzero hz.symm
      rw [hx, hy, ← hz]
      norm_num
    · obtain ⟨hx, hy⟩ := hpos hp
      have hsq : (offsetX - s.slingshot.x) ^ 2 + (offsetY - s.slingshot.y) ^ 2 = d ^ 2 :=
        (Real.sq_sqrt (by positivity)).symm
      have hne : d ≠ 0 := ne_of_gt hp
      have hval : q.velocityX ^ 2 + q.velocityY ^ 2 = (0.3 * min 120 d) ^ 2 := by
        rw [hx, hy]
        have : (0.3 * min 120 d / d * (s.slingshot.x - offsetX)) ^ 2 +
            (0.3 * min 120 d / d * (s.slingshot.y - offsetY)) ^ 2 =
            (0.3 * min 120 d / d) ^ 2 *
              ((offsetX - s.slingshot.x) ^ 2 + (offsetY - s.slingshot.y) ^ 2) := by ring
        rw [this, hsq]
        field_simp
      rw [hval]
      exact Real.sqrt_sq (mul_nonneg (by norm_num) hm0)
  · have : min 120 d ≤ 120 := min_le_left _ _
    linarith

/-- After a press on the anchor the projectile rests on the anchor
`(150, 450)`, with radius 15. -/
theorem pressedState_fields :
    pressedState.slingshot.x = 150 ∧ pressedState.slingshot.y = 450 ∧
    pressedState.projectile.x = 150 ∧ pressedState.projectile.y = 450 ∧
    pressedState.projectile.radius = 15 := by
  obtain ⟨hx, hy, -, hd, hr⟩ := reachable_restInvariant realMath pressedState reachable_pressed
  obtain ⟨h1, h2, -, -⟩ := hr (hd pressedState_flags.1)
  exact ⟨hx, hy, h1, h2, (reachable_regionInvariant realMath pressedState reachable_pressed).1⟩

/-- The length of the pull from the anchor `(150, 450)` to `(150, 250)` is
200. -/
theorem pull_up_length :
    Real.sqrt (((150 : ℝ) - pressedState.slingshot.x) ^ 2 +
      ((250 : ℝ) - pressedState.slingshot.y) ^ 2) = 200 := by
  rw [pressedState_fields.1, pressedState_fields.2.1,
    show ((150 : ℝ) - 150) ^ 2 + ((250 : ℝ) - 450) ^ 2 = 200 ^ 2 by norm_num]
  exact Real.sqrt_sq (by norm_num)

/-- C12 after a press on the anchor: a pull to `(150, 250)`, 200 straight up,
and a release launch the projectile straight down with velocity `(0, 36)`. -/
theorem slingshot_semantics_witness :
    launchedState.projectile.isFlying = true ∧
    launchedState.projectile.velocityX = 0 ∧ launchedState.projectile.velocityY = 36 := by
  have h := slingshot_semantics pressedState 150 250 pressedState_flags.1 pressedState_flags.2
  simp only [pull_up_length] at h
  obtain ⟨h1, h2, -⟩ := h
  obtain ⟨hx, hy⟩ := h2 (by norm_num)
  refine ⟨h1, hx.trans ?_, hy.trans ?_⟩
  · rw [pressedState_fields.1]
    norm_num
  · rw [pressedState_fields.2.1]
    norm_num

/-! ## Ground bounces -/

/-- The projectile of `launchedState`: on the anchor, flying straight down at
speed 36. -/
theorem launchedState_fields :
    launchedState.projectile.isFlying = true ∧ launchedState.gameOver = false ∧
    launchedState.projectile.y = 450 ∧ launchedState.projectile.radius = 15 ∧
    launchedState.projectile.velocityY = 36 := by
  obtain ⟨h1, -, h3, -, h5, h6, h7⟩ :=
    aim_release realMath 150 250 pressedState pressedState_flags.1 pressedState_flags.2
  have hlen : realMath.hypot ((150 : ℝ) - pressedState.slingshot.x)
      ((250 : ℝ) - pressedState.slingshot.y) = 200 := pull_up_length
  have hsin := (cos_sin_atan2 ((150 : ℝ) - pressedState.slingshot.x)
    ((250 : ℝ) - pressedState.slingshot.y) (by rw [pull_up_length]; norm_num)).2
  rw [pull_up_length, pressedState_fields.2.1] at hsin
  refine ⟨h1, h7, h5.trans pressedState_fields.2.2.2.1, h6.trans pressedState_fields.2.2.2.2, ?_⟩
  show (mouseup realMath (mousemove realMath 150 250 pressedState)).projectile.velocityY = 36
  rw [h3, hlen]
  rw [pressedState_fields.2.1] at *
  rw [hsin]
  norm_num

/-- A frame on a flying projectile in a running game that stays above the
ground line: the vertical velocity becomes `(velocityY + 0.5) * 0.99`, `y`
moves by it, and the projectile keeps flying in a running game. -/
theorem update_free_fall [FloorRing K] (M : JSMath K) (rx ry : K) (s : State K)
    (hf : s.projectile.isFlying = true) (hg : s.gameOver = false)
    (hfree : s.projectile.y + (s.projectile.velocityY + 0.5) * 0.99 + s.projectile.radius ≤ 600) :
    (update M rx ry s).projectile.isFlying = true ∧ (update M rx ry s).gameOver = false ∧
    (update M rx ry s).projectile.y =
      s.projectile.y + (s.projectile.velocityY + 0.5) * 0.99 ∧
    (update M rx ry s).projectile.radius = s.projectile.radius ∧
    (update M rx ry s).projectile.velocityY = (s.projectile.velocityY + 0.5) * 0.99 := by
  have hw : ∀ r : Projectile K, (wallCollision r).y = r.y ∧
      (wallCollision r).radius = r.radius ∧ (wallCollision r).velocityY = r.velocityY := by
    intro r
    unfold wallCollision
    split <;> exact ⟨rfl, rfl, rfl⟩
  have hno : ¬ ((updatePosition (applyAirResistance (applyGravity s.projectile))).y +
      (updatePosition (applyAirResistance (applyGravity s.projectile))).radius >
        (canvasHeight : K)) := not_lt.mpr hfree
  have hgc : groundCollision (updatePosition (applyAirResistance (applyGravity s.projectile))) =
      updatePosition (applyAirResistance (applyGravity s.projectile)) := by
    unfold groundCollision
    rw [if_neg hno]
  obtain ⟨-, f2, -⟩ := update_frame M rx ry s hf hg
  obtain ⟨-, t2, -⟩ := update_target M rx ry s hf hg
  rw [update_projectile M rx ry s hf hg, t2, hgc, (hw _).1, (hw _).2.1, (hw _).2.2]
  rw [update_projectile M rx ry s hf hg, hgc] at f2
  exact ⟨f2, hg, rfl, rfl, rfl⟩

/-- The projectile of `divingState`: still flying, at height `558.8046135`,
falling at `36.4009635` per frame. -/
theorem divingState_fields :
    Reachable realMath divingState ∧
    divingState.projectile.isFlying = true ∧ divingState.gameOver = false ∧
    divingState.projectile.y = 558.8046135 ∧ divingState.projectile.radius = 15 ∧
    divingState.projectile.velocityY = 36.4009635 := by
  have hw : (Event.update (0 : ℝ) 0).WellFormed :=
    ⟨⟨le_refl _, one_pos⟩, ⟨le_refl _, one_pos⟩⟩
  have r0 : Reachable realMath launchedState :=
    Reachable.step Event.mouseup _ trivial
      (Reachable.step (Event.mousemove 150 250) _ trivial reachable_pressed)
  have r1 := Reachable.step (Event.update 0 0) _ hw r0
  have r2 := Reachable.step (Event.update 0 0) _ hw r1
  have r3 := Reachable.step (Event.update 0 0) _ hw r2
  obtain ⟨a1, a2, a3, a4, a5⟩ := launchedState_fields
  obtain ⟨b1, b2, b3, b4, b5⟩ := update_free_fall realMath 0 0 launchedState a1 a2
    (by rw [a3, a4, a5]; norm_num)
  rw [a3, a5] at b3
  rw [a4] at b4
  rw [a5] at b5
  obtain ⟨c1, c2, c3, c4, c5⟩ := update_free_fall realMath 0 0 _ b1 b2
    (by rw [b3, b4, b5]; norm_num)
  rw [b3, b5] at c3
  rw [b4] at c4
  rw [b5] at c5
  obtain ⟨d1, d2, d3, d4, d5⟩ := update_free_fall realMath 0 0 _ c1 c2
    (by rw [c3, c4, c5]; norm_num)
  rw [c3, c5] at d3
  rw [c4] at d4
  rw [c5] at d5
  refine ⟨r3, d1, d2, d3.trans ?_, d4, d5.trans ?_⟩ <;> norm_num

/-- C19. Ground bounces always send the projectile upward: in every reachable
state `projectile.y + projectile.radius ≤ 600`, so whenever a call of `update`
triggers the ground response, the `velocityY` that enters it (after gravity
and air resistance) is strictly positive and the resulting `velocityY`, which
is `-0.6` times it, is strictly negative. -/
theorem ground_bounce_upward [FloorRing K] (M : JSMath K) (s : State K)
    (h : Reachable M s) :
    s.projectile.y + s.projectile.radius ≤ 600 ∧
    ∀ rx ry : K, s.projectile.isFlying = true → s.gameOver = false →
      let p1 := applyAirResistance (applyGravity s.projectile)
      let p2 := updatePosition p1
      p2.y + p2.radius > canvasHeight →
      0 < p1.velocityY ∧ (update M rx ry s).projectile.velocityY < 0 ∧
      (update M rx ry s).projectile.velocityY = p1.velocityY * -0.6 := by
  have hy := (reachable_regionInvariant M s h).2.2.2.1
  refine ⟨hy, ?_⟩
  intro rx ry hf hg p1 p2 htrig
  have hpos : 0 < p1.velocityY := by
    have h2 : s.projectile.y + p1.velocityY + s.projectile.radius > 600 := htrig
    linarith
  have hv : (update M rx ry s).projectile.velocityY = p1.velocityY * -0.6 := by
    rw [update_projectile M rx ry s hf hg, (wallCollision_damps _).2]
    show (groundCollision p2).velocityY = _
    unfold groundCollision
    rw [if_pos htrig]
    rfl
  refine ⟨hpos, ?_, hv⟩
  rw [hv]
  have : (0 : K) < 0.6 := by norm_num
  nlinarith

/-- C19 three frames after a launch straight down: the projectile is at
height `558.8046135`, within the ground line, and the next frame triggers the
ground response, entered with a positive `velocityY` and left with a negative
one. -/
theorem ground_bounce_upward_witness :
    divingState.projectile.y + divingState.projectile.radius ≤ 600 ∧
    (update realMath 0 0 divingState).projectile.velocityY < 0 := by
  obtain ⟨hr, hf, hg, hy, hrad, hv⟩ := divingState_fields
  obtain ⟨h1, h2⟩ := ground_bounce_upward realMath divingState hr
  refine ⟨h1, (h2 0 0 hf hg ?_).2.1⟩
  show divingState.projectile.y + (divingState.projectile.velocityY + gravity) * airResistance +
    divingState.projectile.radius > canvasHeight
  rw [hy, hrad, hv]
  norm_num [gravity, airResistance, canvasHeight]

/-! ## What a frame depends on and what it leaves alone -/

/-- The fields of the projectile after the five projectile blocks, as
functions of its position, velocity and radius before them. -/
theorem blocks_fields (p : Projectile K) :
    (wallCollision (groundCollision (updatePosition
      (applyAirResistance (applyGravity p))))).x = p.x + p.velocityX * airResistance ∧
    (wallCollision (groundCollision (updatePosition
      (applyAirResistance (applyGravity p))))).y =
        (if p.y + (p.velocityY + gravity) * airResistance + p.radius > canvasHeight
          then canvasHeight - p.radius else p.y + (p.velocityY + gravity) * airResistance) ∧
    (wallCollision (groundCollision (updatePosition
      (applyAirResistance (applyGravity p))))).velocityY =
        (if p.y + (p.velocityY + gravity) * airResistance + p.radius > canvasHeight
          then (p.velocityY + gravity) * airResistance * -0.6
          else (p.velocityY + gravity) * airResistance) ∧
    (wallCollision (groundCollision (updatePosition
      (applyAirResistance (applyGravity p))))).velocityX =
        (if p.y + (p.velocityY + gravity) * airResistance + p.radius > canvasHeight
          then p.velocityX * airResistance * groundFriction else p.velocityX * airResistance) *
        (if p.x + p.velocityX * airResistance + p.radius > canvasWidth ∨
            p.x + p.velocityX * airResistance - p.radius < 0 then -0.6 else 1) := by
  by_cases hgr : p.y + (p.velocityY + gravity) * airResistance + p.radius > canvasHeight <;>
    by_cases hw : p.x + p.velocityX * airResistance + p.radius > canvasWidth ∨
      p.x + p.velocityX * airResistance - p.radius < 0
  all_goals
    simp only [wallCollision, groundCollision, updatePosition, applyAirResistance, applyGravity,
      hgr, hw, if_true, if_false, mul_one, and_self]

/-- What `update` leaves alone in every state, gate open or closed. -/
theorem update_keeps [FloorRing K] (M : JSMath K) (rx ry : K) (s : State K) :
    (update M rx ry s).projectile.isFlying = s.projectile.isFlying ∧
    (update M rx ry s).slingshot = s.slingshot ∧
    (update M rx ry s).projectile.radius = s.projectile.radius ∧
    (update M rx ry s).target.radius = s.target.radius ∧
    (update M rx ry s).timeLeft = s.timeLeft ∧
    (update M rx ry s).gameOver = s.gameOver ∧
    (update M rx ry s).mousePos = s.mousePos := by
  rcases gate_cases s.projectile.isFlying s.gameOver with ⟨hf, hg⟩ | hc
  · obtain ⟨u1, u2, -⟩ := update_frame M rx ry s hf hg
    obtain ⟨t1, t2, t3, t4, -⟩ := update_target M rx ry s hf hg
    refine ⟨u2.trans hf.symm, u1, ?_, t1, t3, t2, t4⟩
    rw [update_projectile M rx ry s hf hg]
    exact (blocks_ground_line s.projectile).1
  · rw [update_gate M rx ry s hc]
    exact ⟨rfl, rfl, rfl, rfl, rfl, rfl, rfl⟩

/-- C18. Flying persists: `update` leaves `projectile.isFlying`,
`slingshot.isDragging`, `slingshot.angle`, `slingshot.force`, both radii,
`timeLeft` and `gameOver` as they were; so a flying projectile is still flying
after any number of calls of `update`, and the only event that takes a
projectile from flying to not flying is a `mousedown` within the activation
radius. -/
theorem flying_persists [FloorRing K] (M : JSMath K) (s : State K) :
    (∀ rx ry : K,
      (update M rx ry s).projectile.isFlying = s.projectile.isFlying ∧
      (update M rx ry s).slingshot.isDragging = s.slingshot.isDragging ∧
      (update M rx ry s).slingshot.angle = s.slingshot.angle ∧
      (update M rx ry s).slingshot.force = s.slingshot.force ∧
      (update M rx ry s).projectile.radius = s.projectile.radius ∧
      (update M rx ry s).target.radius = s.target.radius ∧
      (update M rx ry s).timeLeft = s.timeLeft ∧
      (update M rx ry s).gameOver = s.gameOver) ∧
    (s.projectile.isFlying = true → ∀ rs : List (K × K),
      (rs.foldl (fun t r => update M r.1 r.2 t) s).projectile.isFlying = true) ∧
    (∀ e : Event K, s.projectile.isFlying = true →
      (step M e s).projectile.isFlying = false →
      ∃ offsetX offsetY : K, e = Event.mousedown offsetX offsetY ∧
        M.hypot (offsetX - s.slingshot.x) (offsetY - s.slingshot.y) ≤ s.slingshot.forkWidth) := by
  refine ⟨fun rx ry => ?_, fun hf rs => ?_, fun e hf hstop => ?_⟩
  · obtain ⟨k1, k2, k3, k4, k5, k6, -⟩ := update_keeps M rx ry s
    exact ⟨k1, by rw [k2], by rw [k2], by rw [k2], k3, k4, k5, k6⟩
  · induction rs generalizing s with
    | nil => exact hf
    | cons r rs ih =>
      exact ih (update M r.1 r.2 s) ((update_keeps M r.1 r.2 s).1.trans hf)
  · cases e with
    | mousedown offsetX offsetY =>
      refine ⟨offsetX, offsetY, rfl, ?_⟩
      by_contra hout
      have hsame : mousedown M offsetX offsetY s = s := by
        unfold mousedown
        dsimp only
        rw [if_neg hout]
      have h2 : (mousedown M offsetX offsetY s).projectile.isFlying = false := hstop
      rw [hsame, hf] at h2
      exact absurd h2 (by simp)
    | mousemove offsetX offsetY =>
      have h2 : (mousemove M offsetX offsetY s).projectile.isFlying = false := hstop
      rw [(mousemove_frame M offsetX offsetY s).2.2.2.2.1, hf] at h2
      exact absurd h2 (by simp)
    | mouseup =>
      have h2 : (mouseup M s).projectile.isFlying = false := hstop
      unfold mouseup at h2
      dsimp only at h2
      split at h2
      · exact absurd h2 (by simp)
      · rw [hf] at h2
        exact absurd h2 (by simp)
    | update rx ry =>
      have h2 : (update M rx ry s).projectile.isFlying = false := hstop
      rw [(update_keeps M rx ry s).1, hf] at h2
      exact absurd h2 (by simp)
    | timerTick =>
      have h2 : (timerTick s).projectile.isFlying = false := hstop
      rw [(timerTick_frame s).2.1, hf] at h2
      exact absurd h2 (by simp)

/-- C18 from the launch straight down: after three frames, the last state
before the first ground bounce, the projectile is still flying. -/
theorem flying_persists_witness :
    divingState.projectile.isFlying = true :=
  (flying_persists realMath launchedState).2.1 launchedState_fields.1
    [((0 : ℝ), (0 : ℝ)), (0, 0), (0, 0)]

/-- The target check writes the same state for any two pairs of random
values, the target coordinates apart. -/
theorem checkTargetHit_random [FloorRing K] (M : JSMath K) (rx ry rx2 ry2 : K)
    (s : State K) :
    (checkTargetHit M rx ry s).successCount = (checkTargetHit M rx2 ry2 s).successCount ∧
    (checkTargetHit M rx ry s).target.hit = (checkTargetHit M rx2 ry2 s).target.hit ∧
    (checkTargetHit M rx ry s).target.radius = (checkTargetHit M rx2 ry2 s).target.radius ∧
    (checkTargetHit M rx ry s).target.depth = (checkTargetHit M rx2 ry2 s).target.depth := by
  unfold checkTargetHit
  dsimp only
  split <;> exact ⟨rfl, rfl, rfl, rfl⟩

/-- C15. Determinism of the physics path: two states with a flying projectile
in a running game that agree on the projectile's position, velocity and radius
have, after one call of `update` each, the same projectile position, velocity
and `isFlying` flag, whatever their targets, counters, aim states and random
values are; and for one state, two calls of `update` with different random
values differ at most in `target.x` and `target.y`. -/
theorem physics_deterministic [FloorRing K] (M : JSMath K) (rx ry rx2 ry2 : K)
    (s s2 : State K) :
    (s.projectile.isFlying = true → s.gameOver = false →
      s2.projectile.isFlying = true → s2.gameOver = false →
      s.projectile.x = s2.projectile.x → s.projectile.y = s2.projectile.y →
      s.projectile.velocityX = s2.projectile.velocityX →
      s.projectile.velocityY = s2.projectile.velocityY →
      s.projectile.radius = s2.projectile.radius →
      (update M rx ry s).projectile.x = (update M rx2 ry2 s2).projectile.x ∧
      (update M rx ry s).projectile.y = (update M rx2 ry2 s2).projectile.y ∧
      (update M rx ry s).projectile.velocityX = (update M rx2 ry2 s2).projectile.velocityX ∧
      (update M rx ry s).projectile.velocityY = (update M rx2 ry2 s2).projectile.velocityY ∧
      (update M rx ry s).projectile.isFlying = (update M rx2 ry2 s2).projectile.isFlying) ∧
    ((update M rx ry s).projectile = (update M rx2 ry2 s).projectile ∧
      (update M rx ry s).slingshot = (update M rx2 ry2 s).slingshot ∧
      (update M rx ry s).successCount = (update M rx2 ry2 s).successCount ∧
      (update M rx ry s).timeLeft = (update M rx2 ry2 s).timeLeft ∧
      (update M rx ry s).gameOver = (update M rx2 ry2 s).gameOver ∧
      (update M rx ry s).mousePos = (update M rx2 ry2 s).mousePos ∧
      (update M rx ry s).target.hit = (update M rx2 ry2 s).target.hit ∧
      (update M rx ry s).target.radius = (update M rx2 ry2 s).target.radius ∧
      (update M rx ry s).target.depth = (update M rx2 ry2 s).target.depth) := by
  constructor
  · intro hf hg hf2 hg2 hx hy hvx hvy hr
    obtain ⟨a1, a2, a3, a4⟩ := blocks_fields s.projectile
    obtain ⟨b1, b2, b3, b4⟩ := blocks_fields s2.projectile
    rw [update_projectile M rx ry s hf hg, update_projectile M rx2 ry2 s2 hf2 hg2,
      a1, a2, a3, a4, b1, b2, b3, b4, blocks_isFlying, blocks_isFlying,
      hx, hy, hvx, hvy, hr, hf, hf2]
    exact ⟨rfl, rfl, rfl, rfl, rfl⟩
  · rcases gate_cases s.projectile.isFlying s.gameOver with ⟨hf, hg⟩ | hc
    · have hu : ∀ a b : K, update M a b s = checkTargetHit M a b
          { s with projectile := wallCollision (groundCollision (updatePosition
            (applyAirResistance (applyGravity s.projectile)))) } := by
        intro a b
        unfold update
        simp only [hf, hg, Bool.not_false, Bool.and_self, if_true]
      obtain ⟨k1, k2, k3, k4, k5, k6, k7⟩ := update_keeps M rx ry s
      obtain ⟨l1, l2, l3, l4, l5, l6, l7⟩ := update_keeps M rx2 ry2 s
      obtain ⟨c1, c2, c3, c4⟩ := checkTargetHit_random M rx ry rx2 ry2
        { s with projectile := wallCollision (groundCollision (updatePosition
          (applyAirResistance (applyGravity s.projectile)))) }
      refine ⟨?_, k2.trans l2.symm, ?_, k5.trans l5.symm, k6.trans l6.symm,
        k7.trans l7.symm, ?_, ?_, ?_⟩
      · rw [update_projectile M rx ry s hf hg, update_projectile M rx2 ry2 s hf hg]
      · rw [hu rx ry, hu rx2 ry2]
        exact c1
      · rw [hu rx ry, hu rx2 ry2]
        exact c2
      · rw [hu rx ry, hu rx2 ry2]
        exact c3
      · rw [hu rx ry, hu rx2 ry2]
        exact c4
    · rw [update_gate M rx ry s hc, update_gate M rx2 ry2 s hc]
      exact ⟨rfl, rfl, rfl, rfl, rfl, rfl, rfl, rfl, rfl⟩

/-- C15 on the ground-bounce state and the hit-scenario state made to agree
with it on the projectile: the two frames, with different targets, counters
and random values, yield the same projectile position and velocity. -/
theorem physics_deterministic_witness :
    (update realMath 0 0 bounceState).projectile.x =
      (update realMath (1 / 2) (1 / 3)
        { contactState with projectile := bounceState.projectile, successCount := 7 }).projectile.x ∧
    (update realMath 0 0 bounceState).projectile.velocityY =
      (update realMath (1 / 2) (1 / 3)
        { contactState with projectile := bounceState.projectile, successCount := 7 }).projectile.velocityY :=
  have h := (physics_deterministic realMath 0 0 (1 / 2) (1 / 3) bounceState
    { contactState with projectile := bounceState.projectile, successCount := 7 }).1
    rfl rfl rfl rfl rfl rfl rfl rfl rfl
  ⟨h.1, h.2.2.2.1⟩

/-! ## Wall overlap -/

/-- The horizontal data of the projectile after a frame that passes the gate:
the new `x`, the unchanged radius, the flags, and the new `velocityX` as the
air-damped one times a ground factor `1` or `0.8` times a wall factor. -/
theorem update_horizontal [FloorRing K] (M : JSMath K) (rx ry : K) (s : State K)
    (hf : s.projectile.isFlying = true) (hg : s.gameOver = false) :
    (update M rx ry s).projectile.isFlying = true ∧ (update M rx ry s).gameOver = false ∧
    (update M rx ry s).projectile.radius = s.projectile.radius ∧
    (update M rx ry s).projectile.x = s.projectile.x + s.projectile.velocityX * 0.99 ∧
    ∃ g : K, (g = 1 ∨ g = 0.8) ∧
      (update M rx ry s).projectile.velocityX =
        s.projectile.velocityX * 0.99 * g *
          (if (update M rx ry s).projectile.x + s.projectile.radius > 800 ∨
              (update M rx ry s).projectile.x - s.projectile.radius < 0 then -0.6 else 1) := by
  obtain ⟨k1, -, k3, -, -, k6, -⟩ := update_keeps M rx ry s
  obtain ⟨a1, -, -, a4⟩ := blocks_fields s.projectile
  have hx : (update M rx ry s).projectile.x = s.projectile.x + s.projectile.velocityX * 0.99 := by
    rw [update_projectile M rx ry s hf hg, a1]
    rfl
  refine ⟨k1.trans hf, k6.trans hg, k3, hx, ?_⟩
  rw [hx, update_projectile M rx ry s hf hg, a4]
  by_cases hgr : s.projectile.y + (s.projectile.velocityY + gravity) * airResistance +
      s.projectile.radius > canvasHeight
  · refine ⟨0.8, Or.inr rfl, ?_⟩
    rw [if_pos hgr]
    rfl
  · refine ⟨1, Or.inl rfl, ?_⟩
    rw [if_neg hgr, mul_one]
    rfl

/-- C16 as stated fails: the projectile of `wallState` is within the
horizontal bounds (`15 ≤ 785 ≤ 785`); after one frame it is at `x = 795` and
overlaps the right wall, and after the next frame it is at `x = 789.06` and
still overlaps it. -/
theorem wall_overlap_counterexample :
    (wallState : State ℝ).projectile.isFlying = true ∧
    (wallState : State ℝ).gameOver = false ∧
    (wallState : State ℝ).projectile.radius ≤ (wallState : State ℝ).projectile.x ∧
    (wallState : State ℝ).projectile.x ≤ 800 - (wallState : State ℝ).projectile.radius ∧
    (update realMath 0 0 wallState).projectile.x = 795 ∧
    (update realMath 0 0 wallState).projectile.radius = 15 ∧
    (update realMath 0 0 wallState).projectile.x +
      (update realMath 0 0 wallState).projectile.radius > 800 ∧
    (update realMath 0 0 (update realMath 0 0 wallState)).projectile.x = 789.06 ∧
    (update realMath 0 0 (update realMath 0 0 wallState)).projectile.radius = 15 ∧
    (update realMath 0 0 (update realMath 0 0 wallState)).projectile.x +
      (update realMath 0 0 (update realMath 0 0 wallState)).projectile.radius > 800 := by
  obtain ⟨f1, g1, r1, x1, g, hg, v1⟩ := update_horizontal realMath 0 0 wallState rfl rfl
  obtain ⟨-, -, r2, x2, -⟩ := update_horizontal realMath 0 0 _ f1 g1
  have hr1 : (update realMath 0 0 wallState).projectile.radius = 15 := r1
  have hx1 : (update realMath 0 0 wallState).projectile.x = 795 := by
    rw [x1]
    show (785 : ℝ) + 1000 / 99 * 0.99 = 795
    norm_num
  have hv1 : (update realMath 0 0 wallState).projectile.velocityX = -6 := by
    have hnog : ¬ ((wallState : State ℝ).projectile.y +
        ((wallState : State ℝ).projectile.velocityY + gravity) * airResistance +
        (wallState : State ℝ).projectile.radius > canvasHeight) := by
      show ¬ ((100 : ℝ) + (0 + gravity) * airResistance + 15 > canvasHeight)
      norm_num [gravity, airResistance, canvasHeight]
    rw [update_projectile realMath 0 0 wallState rfl rfl,
      (blocks_fields (wallState : State ℝ).projectile).2.2.2, if_neg hnog]
    show (1000 / 99 * airResistance : ℝ) *
      (if (785 : ℝ) + 1000 / 99 * airResistance + 15 > canvasWidth ∨
          (785 : ℝ) + 1000 / 99 * airResistance - 15 < 0 then -0.6 else 1) = -6
    norm_num [airResistance, canvasWidth]
  have hx2 : (update realMath 0 0 (update realMath 0 0 wallState)).projectile.x = 789.06 := by
    rw [x2, hx1, hv1]
    norm_num
  have hr2 : (update realMath 0 0 (update realMath 0 0 wallState)).projectile.radius = 15 :=
    r2.trans hr1
  refine ⟨rfl, rfl, ?_, ?_, hx1, hr1, ?_, hx2, hr2, ?_⟩
  · show (15 : ℝ) ≤ 785
    norm_num
  · show (785 : ℝ) ≤ 800 - 15
    norm_num
  · rw [hx1, hr1]
    norm_num
  · rw [hx2, hr2]
    norm_num

/-- C16, amended. Wall overlap: for a flying projectile in a running game
that lies within the horizontal bounds before a frame
(`radius ≤ x ≤ 800 - radius`) and overlaps a wall after it, the projectile is
within the horizontal bounds again after the next frame exactly when the depth
of the overlap after the first frame (`x + radius - 800` at the right wall,
`radius - x` at the left wall) is at most `0.99 * |velocityX|` of the state
after the first frame. -/
theorem wall_overlap_duration [FloorRing K] (M : JSMath K) (rx ry rx2 ry2 : K)
    (s : State K) (hf : s.projectile.isFlying = true) (hg : s.gameOver = false)
    (hlo : s.projectile.radius ≤ s.projectile.x)
    (hhi : s.projectile.x ≤ 800 - s.projectile.radius)
    (hov : (update M rx ry s).projectile.x + (update M rx ry s).projectile.radius > 800 ∨
      (update M rx ry s).projectile.x - (update M rx ry s).projectile.radius < 0) :
    ((update M rx2 ry2 (update M rx ry s)).projectile.radius ≤
        (update M rx2 ry2 (update M rx ry s)).projectile.x ∧
      (update M rx2 ry2 (update M rx ry s)).projectile.x ≤
        800 - (update M rx2 ry2 (update M rx ry s)).projectile.radius) ↔
    ((update M rx ry s).projectile.x + (update M rx ry s).projectile.radius - 800 ≤
        0.99 * |(update M rx ry s).projectile.velocityX| ∧
      (update M rx ry s).projectile.radius - (update M rx ry s).projectile.x ≤
        0.99 * |(update M rx ry s).projectile.velocityX|) := by
  obtain ⟨f1, g1, r1, x1, g, hgc, v1⟩ := update_horizontal M rx ry s hf hg
  obtain ⟨-, -, r2, x2, -⟩ := update_horizontal M rx2 ry2 _ f1 g1
  rw [r1] at hov
  rw [if_pos hov] at v1
  rw [r2, r1, x2]
  generalize (update M rx ry s).projectile.x = X1 at *
  generalize (update M rx ry s).projectile.velocityX = V at *
  generalize s.projectile.radius = r at *
  generalize s.projectile.x = x0 at *
  generalize s.projectile.velocityX * 0.99 = a at *
  have h99 : (0.99 : K) = 99 / 100 := by norm_num
  have h06 : (-0.6 : K) = -(3 / 5) := by norm_num
  have h08 : (0.8 : K) = 4 / 5 := by norm_num
  rw [h99]
  rw [h06] at v1
  rcases hov with hright | hleft
  · have ha : 0 < a := by linarith
    have hV : V ≤ 0 := by
      rcases hgc with rfl | rfl
      · rw [v1]
        linarith
      · rw [v1, h08]
        linarith
    have hVa : -a ≤ V := by
      rcases hgc with rfl | rfl
      · rw [v1]
        linarith
      · rw [v1, h08]
        linarith
    rw [abs_of_nonpos hV]
    constructor
    · rintro ⟨-, h2⟩
      constructor <;> linarith
    · rintro ⟨h1, -⟩
      constructor <;> linarith
  · have ha : a < 0 := by linarith
    have hV : 0 ≤ V := by
      rcases hgc with rfl | rfl
      · rw [v1]
        linarith
      · rw [v1, h08]
        linarith
    have hVa : V ≤ -a := by
      rcases hgc with rfl | rfl
      · rw [v1]
        linarith
      · rw [v1, h08]
        linarith
    rw [abs_of_nonneg hV]
    constructor
    · rintro ⟨h1, -⟩
      constructor <;> linarith
    · rintro ⟨-, h2⟩
      constructor <;> linarith

/-- The first frame from `grazeState`: the projectile moves to `x = 790`, 5
into the right wall, and leaves with `velocityX = -6`. -/
theorem grazeState_first_frame :
    (update realMath 0 0 grazeState).projectile.x = 790 ∧
    (update realMath 0 0 grazeState).projectile.radius = 15 ∧
    (update realMath 0 0 grazeState).projectile.velocityX = -6 := by
  obtain ⟨-, -, r1, x1, -⟩ := update_horizontal realMath 0 0 grazeState rfl rfl
  have hnog : ¬ ((grazeState : State ℝ).projectile.y +
      ((grazeState : State ℝ).projectile.velocityY + gravity) * airResistance +
      (grazeState : State ℝ).projectile.radius > canvasHeight) := by
    show ¬ ((100 : ℝ) + (0 + gravity) * airResistance + 15 > canvasHeight)
    norm_num [gravity, airResistance, canvasHeight]
  refine ⟨?_, r1, ?_⟩
  · rw [x1]
    show (780 : ℝ) + 1000 / 99 * 0.99 = 790
    norm_num
  · rw [update_projectile realMath 0 0 grazeState rfl rfl,
      (blocks_fields (grazeState : State ℝ).projectile).2.2.2, if_neg hnog]
    show (1000 / 99 * airResistance : ℝ) *
      (if (780 : ℝ) + 1000 / 99 * airResistance + 15 > canvasWidth ∨
          (780 : ℝ) + 1000 / 99 * airResistance - 15 < 0 then -0.6 else 1) = -6
    norm_num [airResistance, canvasWidth]

/-- C16, amended, from `grazeState`: the first frame leaves the projectile 5
into the right wall with `|velocityX| = 6`, and `5 ≤ 0.99 * 6`, so after the
second frame it is within the horizontal bounds again. -/
theorem wall_overlap_duration_witness :
    (update realMath 0 0 (update realMath 0 0 grazeState)).projectile.radius ≤
      (update realMath 0 0 (update realMath 0 0 grazeState)).projectile.x ∧
    (update realMath 0 0 (update realMath 0 0 grazeState)).projectile.x ≤
      800 - (update realMath 0 0 (update realMath 0 0 grazeState)).projectile.radius := by
  obtain ⟨hx, hr, hv⟩ := grazeState_first_frame
  refine (wall_overlap_duration realMath 0 0 0 0 grazeState rfl rfl ?_ ?_ ?_).mpr ⟨?_, ?_⟩
  · show (15 : ℝ) ≤ 780
    norm_num
  · show (780 : ℝ) ≤ 800 - 15
    norm_num
  · left
    rw [hx, hr]
    norm_num
  · rw [hx, hr, hv]
    norm_num
  · rw [hx, hr, hv]
    norm_num

end Properties

end Game
